import Mathlib

/-!
Verification of the `coolprop-rs` FFI wrapper.

This file shallowly embeds the marshalling layer of the crate: byte-level
string handling (`c_buf_to_string`, embedded-NUL detection), the
status/message error channel (`call_with_error`), the growable-buffer retry
loops (`global_param_string`, `fluid_param_string`, `phase_si`,
`AbstractState::fluid_param_string`), the finite-value error channel
(`check_finite_and_report_error`, `props_si`, `props1_si`, `ha_props_si`),
the global-errstring configuration channel (`config_call`, `set_config_*`),
the once-per-process index cache (`global_indices`), the phase-code table
(`Phase::from_code`), the handle lifecycle, and the `Send`/`Sync` auto-trait
derivation for `AbstractState`.

The native CoolProp library is opaque; it is modelled by oracle functions
supplying, for each native entry point, the status code, the bytes written
into the caller-provided buffer, and the returned value.  Rust strings and C
buffers are modelled as lists of byte values (`Bytes`); `f64` results are
modelled by a value tagged with its finiteness, which is the only property
the wrapper inspects.

Wrapper functions return an `Outcome`: `ret` for a normal return,
`timeout` when the modelled loop has exhausted its iteration allowance
(used to reason about termination) and `crash` for a Rust panic reachable
in wrapper code.  Each function additionally returns the list of native
calls it performed, in order.
-/

deriving instance DecidableEq for Except

set_option maxRecDepth 8192

namespace CoolPropRs

/-- Bytes of a Rust string or C character buffer. -/
abbrev Bytes := List Nat

/-- Byte list of a Lean string literal (code points; ASCII in all uses). -/
def strLit (s : String) : Bytes := s.data.map Char.toNat

/-- `CString::new` succeeds iff the string has no interior NUL byte. -/
def containsNul (s : Bytes) : Bool := s.contains 0

/-- Bytes strictly before the first NUL, as read by `CStr::from_bytes_until_nul`. -/
def takeUntilNul : Bytes → Bytes
  | [] => []
  | b :: bs => if b = 0 then [] else b :: takeUntilNul bs

/-- `trim_end_matches('\0')` on the byte level. -/
def dropTrailingNuls (s : Bytes) : Bytes := (s.reverse.dropWhile (fun b => b = 0)).reverse

/-- `c_buf_to_string` (src/lib.rs): decode up to the first NUL when one is
present, otherwise decode the whole buffer with trailing NULs trimmed. -/
def c_buf_to_string (buf : Bytes) : Bytes :=
  if containsNul buf then takeUntilNul buf else dropTrailingNuls buf

/-- Contents of a C buffer of fixed length `n` after the native call wrote
`written`: the buffer keeps its allocated length, unwritten space keeps the
zero initialisation. -/
def fixLen (n : Nat) (written : Bytes) : Bytes :=
  written.take n ++ List.replicate (n - written.length) 0

/-- A Rust slice write `buf[i] = v`; out-of-bounds indexing is a panic,
modelled by `none`. -/
def trySet (xs : Bytes) (i : Nat) (v : Nat) : Option Bytes :=
  if i < xs.length then some (xs.set i v) else none

/-- Model of an `f64` as seen by the wrapper: the wrapper only branches on
`is_finite`, the payload keeps distinct values distinct. -/
structure F64 where
  finite : Bool
  payload : Nat
deriving DecidableEq, Repr

/-- The crate error type (src/error.rs).  Messages and parameters are byte
strings; `EmbeddedNul` labels are the static Rust labels. -/
inductive Error where
  | coolProp (code : Int) (message : Bytes)
  | coolPropGlobalError (message : Bytes)
  | unknownPhaseCode (code : Int)
  | invalidInput (message : Bytes)
  | computation (context : Bytes) (message : Bytes)
  | globalParameter (param : Bytes) (message : Bytes)
  | embeddedNul (label : String)
deriving DecidableEq, Repr

/-- Result of a wrapper function in the model: a normal return, exhaustion of
the modelled loop allowance, or a Rust panic in wrapper code. -/
inductive Outcome (α : Type) where
  | ret (v : α)
  | timeout
  | crash
deriving DecidableEq, Repr

/-- Native calls performed by the wrapper, in order, with the arguments that
identify the call. -/
inductive NCall where
  | getGlobalParamString (key : Bytes) (capacity : Nat)
  | getFluidParamStringLen (fluid param : Bytes)
  | getFluidParamString (fluid param : Bytes) (capacity : Nat)
  | phaseSICall (name1 name2 fluid : Bytes) (capacity : Nat)
  | propsSICall (output name1 name2 fluid : Bytes)
  | props1SICall (fluid output : Bytes)
  | haPropsSICall (output name1 name2 name3 : Bytes)
  | setConfigStringCall (key value : Bytes)
  | setConfigDoubleCall (key : Bytes) (value : F64)
  | setConfigBoolCall (key : Bytes) (value : Bool)
  | getInputPairIndex (name : Bytes)
  | getParamIndex (name : Bytes)
  | absFactory (backend fluid : Bytes)
  | absFluidParamString (param : Bytes) (capacity : Nat)
  | absPhase
  | absFree
deriving DecidableEq, Repr

/-- Response of one handle-based native call: the status written through the
`errcode` out-parameter, the bytes written into the 1024-byte message buffer,
and the value returned by the call. -/
structure CallResp (R : Type) where
  status : Int
  msg : Bytes
  val : R

/-- `ERR_BUF_LEN` (src/abstract_state.rs). -/
def ERR_BUF_LEN : Nat := 1024

/-- `DEFAULT_STR_BUF_LEN` (src/abstract_state.rs). -/
def DEFAULT_STR_BUF_LEN : Nat := 1024

/-- `call_with_error` (src/abstract_state.rs): run the native call with a
zero status and a zeroed 1024-byte message buffer; a non-zero status becomes
`Error::CoolProp` with the code and the NUL-terminated message, a zero
status returns the call's result unchanged. -/
def call_with_error {R : Type} (resp : CallResp R) : Except Error R :=
  let buf := fixLen ERR_BUF_LEN resp.msg
  if resp.status ≠ 0 then
    Except.error (Error.coolProp resp.status
      (c_buf_to_string (buf.set (ERR_BUF_LEN - 1) 0)))
  else
    Except.ok resp.val

/-- The message extracted from the status channel of a native response. -/
def callErrMessage (msg : Bytes) : Bytes :=
  c_buf_to_string ((fixLen ERR_BUF_LEN msg).set (ERR_BUF_LEN - 1) 0)

theorem call_with_error_ok {R : Type} (resp : CallResp R) (h : resp.status = 0) :
    call_with_error resp = Except.ok resp.val := by
  simp [call_with_error, h]

theorem call_with_error_err {R : Type} (resp : CallResp R) (h : resp.status ≠ 0) :
    call_with_error resp =
      Except.error (Error.coolProp resp.status (callErrMessage resp.msg)) := by
  simp [call_with_error, callErrMessage, h]

/-- C3: through `call_with_error`, the wrapper returns
`Err(Error::CoolProp { code, message })` if and only if the status
out-parameter set by the native call is non-zero, with `code` equal to that
status and `message` decoded from the message buffer; with a zero status it
returns `Ok` with the native result unchanged. -/
theorem claim_c3_call_with_error_status_channel {R : Type} (resp : CallResp R) :
    (resp.status ≠ 0 →
      call_with_error resp =
        Except.error (Error.coolProp resp.status (callErrMessage resp.msg)))
    ∧ (resp.status = 0 → call_with_error resp = Except.ok resp.val)
    ∧ ((∃ c m, call_with_error resp = Except.error (Error.coolProp c m)) ↔
        resp.status ≠ 0) := by
  refine ⟨fun h => call_with_error_err resp h, fun h => call_with_error_ok resp h, ?_, ?_⟩
  · rintro ⟨c, m, hcm⟩ h0
    rw [call_with_error_ok resp h0] at hcm
    exact Except.noConfusion hcm
  · intro h
    exact ⟨resp.status, callErrMessage resp.msg, call_with_error_err resp h⟩

/-- Witness for C3 at a concrete native response with status `7` and message
bytes `"bad"`. -/
theorem claim_c3_witness :
    call_with_error { status := 7, msg := strLit "bad", val := (42 : Int) } =
      Except.error (Error.coolProp 7 (callErrMessage (strLit "bad"))) :=
  (claim_c3_call_with_error_status_channel
    { status := 7, msg := strLit "bad", val := (42 : Int) }).1 (by decide)

/-! ## Growable-buffer string queries (src/lib.rs) -/

/-- Oracle for a status-and-buffer native string query at a given capacity:
the status return and the bytes the native call wrote into the buffer. -/
abbrev StrOracle := Nat → Int × Bytes

/-- The key `"errstring"`. -/
def errstringKey : Bytes := strLit "errstring"

/-- The shared shape of the retry loops in `global_param_string`,
`fluid_param_string` and `phase_si` (src/lib.rs): allocate a zeroed buffer of
the current capacity, run the native call; on status 1, NUL-terminate the
buffer and decode it; otherwise, if the capacity has reached the ceiling,
produce the terminal failure `fail`; otherwise double the capacity and
retry.  `fuel` bounds the modelled iterations; `timeout` means the loop was
still running when the allowance ran out. -/
def growLoop (call : StrOracle) (ev : Nat → NCall) (ceil : Nat)
    (fail : Outcome Error × List NCall) :
    Nat → Nat → Outcome (Except Error Bytes) × List NCall
  | 0, _ => (Outcome.timeout, [])
  | fuel + 1, capacity =>
    let r := call capacity
    let buffer := fixLen capacity r.2
    if r.1 = 1 then
      match trySet buffer (capacity - 1) 0 with
      | none => (Outcome.crash, [ev capacity])
      | some b => (Outcome.ret (Except.ok (c_buf_to_string b)), [ev capacity])
    else if ceil ≤ capacity then
      match fail with
      | (Outcome.ret e, tr) => (Outcome.ret (Except.error e), ev capacity :: tr)
      | (Outcome.timeout, tr) => (Outcome.timeout, ev capacity :: tr)
      | (Outcome.crash, tr) => (Outcome.crash, ev capacity :: tr)
    else
      let rest := growLoop call ev ceil fail fuel (capacity * 2)
      (rest.1, ev capacity :: rest.2)

/-- Iteration allowance used when instantiating the ceiling-bounded loops;
any value at least 21 is unreachable (see `growLoop_ret`). -/
def loopFuel : Nat := 32

/-- The terminal failure branch of `global_param_string`: one more native
call fetching `"errstring"` into a 1024-byte buffer whose status is ignored,
then `Error::GlobalParameter` with the decoded message. -/
def gpsFail (gps : Bytes → StrOracle) (param : Bytes) : Outcome Error × List NCall :=
  let ebuf := fixLen 1024 (gps errstringKey 1024).2
  match trySet ebuf (1024 - 1) 0 with
  | none => (Outcome.crash, [NCall.getGlobalParamString errstringKey 1024])
  | some b =>
    (Outcome.ret (Error.globalParameter param (c_buf_to_string b)),
     [NCall.getGlobalParamString errstringKey 1024])

/-- `global_param_string` (src/lib.rs): reject interior NULs, build the
static `"errstring"` C string (whose `expect` is a modelled panic source),
then run the retry loop from capacity 256 with ceiling `2^20`. -/
def global_param_string (gps : Bytes → StrOracle) (param : Bytes) :
    Outcome (Except Error Bytes) × List NCall :=
  if containsNul param then (Outcome.ret (Except.error (Error.embeddedNul "param")), [])
  else if containsNul errstringKey then (Outcome.crash, [])
  else
    growLoop (gps param) (fun n => NCall.getGlobalParamString param n) (2 ^ 20)
      (gpsFail gps param) loopFuel 256

/-- `coolprop_global_error` (src/lib.rs): fetch `"errstring"` through
`global_param_string`, fall back to `"unknown error"` when that fails, and
wrap the result as `Error::CoolPropGlobalError` with the context prefixed. -/
def coolprop_global_error (gps : Bytes → StrOracle) (context : Bytes) :
    Outcome Error × List NCall :=
  match global_param_string gps errstringKey with
  | (Outcome.ret r, tr) =>
    let message := match r with
      | Except.ok m => m
      | Except.error _ => strLit "unknown error"
    (Outcome.ret (Error.coolPropGlobalError (context ++ strLit ": " ++ message)), tr)
  | (Outcome.timeout, tr) => (Outcome.timeout, tr)
  | (Outcome.crash, tr) => (Outcome.crash, tr)

/-- Context string of `fluid_param_string` (numeric formatting elided). -/
def fluidParamContext (fluid param : Bytes) : Bytes :=
  strLit "get_fluid_param_string(" ++ fluid ++ strLit ", " ++ param ++ strLit ")"

/-- `fluid_param_string` (src/lib.rs): reject interior NULs, query the
required length, fail through the global error channel when it is negative,
then run the retry loop from `max (required+1) 256` with ceiling `2^20`. -/
def fluid_param_string (gfpsLen : Bytes → Bytes → Int) (gfps : Bytes → Bytes → StrOracle)
    (gps : Bytes → StrOracle) (fluid param : Bytes) :
    Outcome (Except Error Bytes) × List NCall :=
  if containsNul fluid then (Outcome.ret (Except.error (Error.embeddedNul "fluid")), [])
  else if containsNul param then (Outcome.ret (Except.error (Error.embeddedNul "param")), [])
  else
    let context := fluidParamContext fluid param
    let required := gfpsLen fluid param
    let lenEv := NCall.getFluidParamStringLen fluid param
    if required < 0 then
      match coolprop_global_error gps context with
      | (Outcome.ret e, tr) => (Outcome.ret (Except.error e), lenEv :: tr)
      | (Outcome.timeout, tr) => (Outcome.timeout, lenEv :: tr)
      | (Outcome.crash, tr) => (Outcome.crash, lenEv :: tr)
    else
      let start := max (required.toNat + 1) 256
      let r := growLoop (gfps fluid param) (fun n => NCall.getFluidParamString fluid param n)
        (2 ^ 20) (coolprop_global_error gps context) loopFuel start
      (r.1, lenEv :: r.2)

/-- Context string of `phase_si` (numeric formatting elided). -/
def phaseSiContext (name1 name2 fluid : Bytes) : Bytes :=
  strLit "PhaseSI(" ++ name1 ++ strLit ", " ++ name2 ++ strLit ", " ++ fluid ++ strLit ")"

/-- `phase_si` (src/lib.rs): reject interior NULs in `name1`, `name2`,
`fluid`, then run the retry loop from capacity 64 with ceiling 4096, failing
through the global error channel. -/
def phase_si (po : Bytes → F64 → Bytes → F64 → Bytes → StrOracle)
    (gps : Bytes → StrOracle)
    (name1 : Bytes) (prop1 : F64) (name2 : Bytes) (prop2 : F64) (fluid : Bytes) :
    Outcome (Except Error Bytes) × List NCall :=
  if containsNul name1 then (Outcome.ret (Except.error (Error.embeddedNul "name1")), [])
  else if containsNul name2 then (Outcome.ret (Except.error (Error.embeddedNul "name2")), [])
  else if containsNul fluid then (Outcome.ret (Except.error (Error.embeddedNul "fluid")), [])
  else
    let context := phaseSiContext name1 name2 fluid
    growLoop (po name1 prop1 name2 prop2 fluid)
      (fun n => NCall.phaseSICall name1 name2 fluid n) 4096
      (coolprop_global_error gps context) loopFuel 64

theorem fixLen_length (n : Nat) (w : Bytes) : (fixLen n w).length = n := by
  simp [fixLen]
  omega

theorem trySet_fixLen_isSome (n : Nat) (w : Bytes) (hn : 1 ≤ n) :
    ∃ b, trySet (fixLen n w) (n - 1) 0 = some b := by
  refine ⟨(fixLen n w).set (n - 1) 0, ?_⟩
  simp [trySet, fixLen_length]
  omega

theorem errstringKey_no_nul : containsNul errstringKey = false := by decide

/-- The ceiling-bounded loop returns within its allowance: with positive
capacity, with enough fuel to double past the ceiling, and with a returning
failure branch, the loop neither times out nor crashes. -/
theorem growLoop_ret (call : StrOracle) (ev : Nat → NCall) (ceil : Nat)
    (e : Error) (failTr : List NCall) :
    ∀ (fuel capacity : Nat), 1 ≤ capacity → ceil ≤ capacity * 2 ^ fuel →
      ∃ r, (growLoop call ev ceil (Outcome.ret e, failTr) (fuel + 1) capacity).1 =
        Outcome.ret r := by
  intro fuel
  induction fuel with
  | zero =>
    intro capacity hcap hceil
    simp only [pow_zero, mul_one] at hceil
    by_cases h1 : (call capacity).1 = 1
    · obtain ⟨b, hb⟩ := trySet_fixLen_isSome capacity (call capacity).2 hcap
      exact ⟨Except.ok (c_buf_to_string b), by rw [growLoop]; simp [h1, hb]⟩
    · exact ⟨Except.error e, by rw [growLoop]; simp [h1, hceil]⟩
  | succ f ih =>
    intro capacity hcap hceil
    by_cases h1 : (call capacity).1 = 1
    · obtain ⟨b, hb⟩ := trySet_fixLen_isSome capacity (call capacity).2 hcap
      exact ⟨Except.ok (c_buf_to_string b), by rw [growLoop]; simp [h1, hb]⟩
    · by_cases hc : ceil ≤ capacity
      · exact ⟨Except.error e, by rw [growLoop]; simp [h1, hc]⟩
      · have hcap2 : 1 ≤ capacity * 2 := by omega
        have hceil2 : ceil ≤ capacity * 2 * 2 ^ f := by
          have h2 : capacity * 2 * 2 ^ f = capacity * 2 ^ (f + 1) := by ring
          rw [h2]
          exact hceil
        obtain ⟨r, hr⟩ := ih (capacity * 2) hcap2 hceil2
        exact ⟨r, by rw [growLoop]; simp [h1, hc, hr]⟩

theorem gpsFail_ret (gps : Bytes → StrOracle) (param : Bytes) :
    ∃ m, gpsFail gps param =
      (Outcome.ret (Error.globalParameter param m),
       [NCall.getGlobalParamString errstringKey 1024]) := by
  obtain ⟨b, hb⟩ := trySet_fixLen_isSome 1024 (gps errstringKey 1024).2 (by omega)
  exact ⟨c_buf_to_string b, by simp [gpsFail, hb]⟩

/-- `global_param_string` always returns (it neither panics nor loops
beyond its ceiling), for every oracle and every parameter. -/
theorem global_param_string_ret (gps : Bytes → StrOracle) (param : Bytes) :
    ∃ r, (global_param_string gps param).1 = Outcome.ret r := by
  by_cases hnul : containsNul param
  · exact ⟨Except.error (Error.embeddedNul "param"),
      by simp [global_param_string, hnul]⟩
  · obtain ⟨m, hm⟩ := gpsFail_ret gps param
    obtain ⟨r, hr⟩ := growLoop_ret (gps param)
      (fun n => NCall.getGlobalParamString param n) (2 ^ 20)
      (Error.globalParameter param m)
      [NCall.getGlobalParamString errstringKey 1024] 31 256 (by omega) (by norm_num)
    refine ⟨r, ?_⟩
    have hunfold : global_param_string gps param =
        growLoop (gps param) (fun n => NCall.getGlobalParamString param n) (2 ^ 20)
          (gpsFail gps param) loopFuel 256 := by
      simp [global_param_string, hnul, errstringKey_no_nul]
    rw [hunfold, hm]
    have hfuel : loopFuel = 31 + 1 := by norm_num [loopFuel]
    rw [hfuel]
    exact hr

/-- The message yielded by `global_param_string("errstring").unwrap_or_else`,
falling back to `"unknown error"` when the query fails. -/
def recoveredErrstring (gps : Bytes → StrOracle) : Bytes :=
  match (global_param_string gps errstringKey).1 with
  | Outcome.ret (Except.ok m) => m
  | _ => strLit "unknown error"

theorem coolprop_global_error_eq (gps : Bytes → StrOracle) (context : Bytes) :
    coolprop_global_error gps context =
      (Outcome.ret (Error.coolPropGlobalError
        (context ++ strLit ": " ++ recoveredErrstring gps)),
       (global_param_string gps errstringKey).2) := by
  obtain ⟨r, hr⟩ := global_param_string_ret gps errstringKey
  rcases hg : global_param_string gps errstringKey with ⟨o, tr⟩
  rw [hg] at hr
  have ho : o = Outcome.ret r := hr
  subst ho
  cases r with
  | ok m => simp [coolprop_global_error, recoveredErrstring, hg]
  | error e => simp [coolprop_global_error, recoveredErrstring, hg]

/-- With a persistently failing native call (status never 1), the
ceiling-bounded loop ends in the terminal failure. -/
theorem growLoop_allFail (call : StrOracle) (ev : Nat → NCall) (ceil : Nat)
    (e : Error) (failTr : List NCall) (h : ∀ n, (call n).1 ≠ 1) :
    ∀ (fuel capacity : Nat), 1 ≤ capacity → ceil ≤ capacity * 2 ^ fuel →
      (growLoop call ev ceil (Outcome.ret e, failTr) (fuel + 1) capacity).1 =
        Outcome.ret (Except.error e) := by
  intro fuel
  induction fuel with
  | zero =>
    intro capacity _ hceil
    simp only [pow_zero, mul_one] at hceil
    rw [growLoop]
    simp [h capacity, hceil]
  | succ f ih =>
    intro capacity hcap hceil
    rw [growLoop]
    by_cases hc : ceil ≤ capacity
    · simp [h capacity, hc]
    · have hceil2 : ceil ≤ capacity * 2 * 2 ^ f := by
        have h2 : capacity * 2 * 2 ^ f = capacity * 2 ^ (f + 1) := by ring
        rw [h2]
        exact hceil
      have := ih (capacity * 2) (by omega) hceil2
      simp [h capacity, hc, this]

/-- The first native call of each retry loop uses the starting capacity. -/
theorem growLoop_trace_head (call : StrOracle) (ev : Nat → NCall) (ceil : Nat)
    (fail : Outcome Error × List NCall) (fuel capacity : Nat) :
    (growLoop call ev ceil fail (fuel + 1) capacity).2.head? = some (ev capacity) := by
  rcases fail with ⟨o, tr⟩
  cases o
  all_goals
    rw [growLoop]
    by_cases h1 : (call capacity).1 = 1
    · rcases hb : trySet (fixLen capacity (call capacity).2) (capacity - 1) 0 with _ | b <;>
        simp [h1, hb]
    · by_cases hc : ceil ≤ capacity <;> simp [h1, hc]

/-- `fluid_param_string` always returns, for every oracle and arguments. -/
theorem fluid_param_string_ret (gfpsLen : Bytes → Bytes → Int)
    (gfps : Bytes → Bytes → StrOracle) (gps : Bytes → StrOracle) (fluid param : Bytes) :
    ∃ r, (fluid_param_string gfpsLen gfps gps fluid param).1 = Outcome.ret r := by
  by_cases hf : containsNul fluid
  · exact ⟨Except.error (Error.embeddedNul "fluid"), by simp [fluid_param_string, hf]⟩
  by_cases hp : containsNul param
  · exact ⟨Except.error (Error.embeddedNul "param"), by simp [fluid_param_string, hf, hp]⟩
  have hglob := coolprop_global_error_eq gps (fluidParamContext fluid param)
  by_cases hneg : gfpsLen fluid param < 0
  · refine ⟨Except.error (Error.coolPropGlobalError
      (fluidParamContext fluid param ++ strLit ": " ++ recoveredErrstring gps)), ?_⟩
    simp [fluid_param_string, hf, hp, hneg, hglob]
  · have hstart : (256 : Nat) ≤ max ((gfpsLen fluid param).toNat + 1) 256 :=
      le_max_right _ _
    have hceil : (2 ^ 20 : Nat) ≤ max ((gfpsLen fluid param).toNat + 1) 256 * 2 ^ 31 := by
      calc (2 ^ 20 : Nat) ≤ 256 * 2 ^ 31 := by norm_num
        _ ≤ max ((gfpsLen fluid param).toNat + 1) 256 * 2 ^ 31 :=
          Nat.mul_le_mul_right _ hstart
    obtain ⟨r, hr⟩ := growLoop_ret (gfps fluid param)
      (fun n => NCall.getFluidParamString fluid param n) (2 ^ 20)
      (Error.coolPropGlobalError
        (fluidParamContext fluid param ++ strLit ": " ++ recoveredErrstring gps))
      (global_param_string gps errstringKey).2 31
      (max ((gfpsLen fluid param).toNat + 1) 256) (by omega) hceil
    refine ⟨r, ?_⟩
    have hfuel : loopFuel = 31 + 1 := by norm_num [loopFuel]
    simp only [fluid_param_string, hf, hp, hneg, Bool.false_eq_true, if_false, hglob,
      hfuel]
    exact hr

/-- `phase_si` always returns, for every oracle and arguments. -/
theorem phase_si_ret (po : Bytes → F64 → Bytes → F64 → Bytes → StrOracle)
    (gps : Bytes → StrOracle) (name1 : Bytes) (prop1 : F64) (name2 : Bytes) (prop2 : F64)
    (fluid : Bytes) :
    ∃ r, (phase_si po gps name1 prop1 name2 prop2 fluid).1 = Outcome.ret r := by
  by_cases h1 : containsNul name1
  · exact ⟨Except.error (Error.embeddedNul "name1"), by simp [phase_si, h1]⟩
  by_cases h2 : containsNul name2
  · exact ⟨Except.error (Error.embeddedNul "name2"), by simp [phase_si, h1, h2]⟩
  by_cases h3 : containsNul fluid
  · exact ⟨Except.error (Error.embeddedNul "fluid"), by simp [phase_si, h1, h2, h3]⟩
  have hglob := coolprop_global_error_eq gps (phaseSiContext name1 name2 fluid)
  obtain ⟨r, hr⟩ := growLoop_ret (po name1 prop1 name2 prop2 fluid)
    (fun n => NCall.phaseSICall name1 name2 fluid n) 4096
    (Error.coolPropGlobalError
      (phaseSiContext name1 name2 fluid ++ strLit ": " ++ recoveredErrstring gps))
    (global_param_string gps errstringKey).2 31 64 (by omega) (by norm_num)
  refine ⟨r, ?_⟩
  have hfuel : loopFuel = 31 + 1 := by norm_num [loopFuel]
  simp only [phase_si, h1, h2, h3, Bool.false_eq_true, if_false, hglob, hfuel]
  exact hr

/-! ## `AbstractState::fluid_param_string` (src/abstract_state.rs): the
ceiling-less retry loop -/

/-- `buf.iter().position(|&c| c == 0)`. -/
def nulPos : Bytes → Option Nat
  | [] => none
  | b :: bs => if b = 0 then some 0 else (nulPos bs).map (fun i => i + 1)

/-- `buffer_saturated` (src/abstract_state.rs): a buffer counts as saturated
when its first NUL is at the last position or there is no NUL at all. -/
def buffer_saturated (buf : Bytes) : Bool :=
  match nulPos buf with
  | some pos => decide (buf.length ≤ pos + 1)
  | none => true

/-- Oracle for `AbstractState_fluid_param_string`: handle, parameter and
capacity determine the status, the error-message bytes and the bytes written
into the output buffer. -/
abbrev AsFpsOracle := Int → Bytes → Nat → CallResp Bytes

/-- The retry loop of `AbstractState::fluid_param_string`: on a native error
return it, on success return the decoded buffer unless it is saturated, in
which case double the capacity and retry — with no capacity ceiling. -/
def asFpsLoop (o : AsFpsOracle) (handle : Int) (param : Bytes) :
    Nat → Nat → Outcome (Except Error Bytes) × List NCall
  | 0, _ => (Outcome.timeout, [])
  | fuel + 1, capacity =>
    let resp := o handle param capacity
    let buffer := fixLen capacity resp.val
    let ev := NCall.absFluidParamString param capacity
    match call_with_error { status := resp.status, msg := resp.msg, val := () } with
    | Except.error e => (Outcome.ret (Except.error e), [ev])
    | Except.ok _ =>
      if buffer_saturated buffer then
        let rest := asFpsLoop o handle param fuel (capacity * 2)
        (rest.1, ev :: rest.2)
      else
        (Outcome.ret (Except.ok (c_buf_to_string buffer)), [ev])

/-- `AbstractState::fluid_param_string`: NUL check, then the loop from
`DEFAULT_STR_BUF_LEN`.  `fuel` is the modelled iteration allowance. -/
def as_fluid_param_string (o : AsFpsOracle) (handle : Int) (param : Bytes) (fuel : Nat) :
    Outcome (Except Error Bytes) × List NCall :=
  if containsNul param then (Outcome.ret (Except.error (Error.embeddedNul "param")), [])
  else asFpsLoop o handle param fuel DEFAULT_STR_BUF_LEN

/-- Termination of the `AbstractState::fluid_param_string` retry loop for a
given native behaviour: some iteration allowance suffices for a return. -/
def AsFpsTerminates (o : AsFpsOracle) (handle : Int) (param : Bytes) : Prop :=
  ∃ fuel, (as_fluid_param_string o handle param fuel).1 ≠ Outcome.timeout

/-- A native behaviour that always reports success and always fills the
whole buffer with non-NUL bytes: every response signals truncation. -/
def alwaysFullOracle : AsFpsOracle := fun _ _ n =>
  { status := 0, msg := [], val := List.replicate n 1 }

theorem nulPos_replicate_one (n : Nat) : nulPos (List.replicate n 1) = none := by
  induction n with
  | zero => rfl
  | succ k ih => simp [List.replicate_succ, nulPos, ih]

theorem fixLen_replicate_one (n : Nat) : fixLen n (List.replicate n 1) = List.replicate n 1 := by
  simp [fixLen]

theorem asFpsLoop_alwaysFull_timeout (handle : Int) (param : Bytes) :
    ∀ (fuel capacity : Nat),
      (asFpsLoop alwaysFullOracle handle param fuel capacity).1 = Outcome.timeout := by
  intro fuel
  induction fuel with
  | zero => intro capacity; rfl
  | succ f ih =>
    intro capacity
    rw [asFpsLoop]
    have hsat : buffer_saturated (fixLen capacity (List.replicate capacity 1)) = true := by
      rw [fixLen_replicate_one]
      simp [buffer_saturated, nulPos_replicate_one]
    simp [alwaysFullOracle, call_with_error, hsat, ih]

/-- C1, counterexample: the claim asserts a hard capacity ceiling making
every listed retry loop terminate for every sequence of native responses,
but the `AbstractState::fluid_param_string` loop has no ceiling: against a
native that always signals truncation, no iteration allowance suffices. -/
theorem claim_c1_counterexample :
    ¬ AsFpsTerminates alwaysFullOracle 1 (strLit "aliases") := by
  rintro ⟨fuel, hfuel⟩
  apply hfuel
  have hnul : containsNul (strLit "aliases") = false := by decide
  simp only [as_fluid_param_string, hnul, Bool.false_eq_true, if_false]
  exact asFpsLoop_alwaysFull_timeout 1 (strLit "aliases") fuel DEFAULT_STR_BUF_LEN

/-- C1, amended: the free-function retry loops (`global_param_string`,
`fluid_param_string`, `phase_si`) double a default-sized buffer on failure
up to hard ceilings (`2^20`, `2^20`, `4096`) and then stop with a terminal
error, so they return for every sequence of native responses; in particular,
when the native never reports success, `global_param_string` ends in
`Error::GlobalParameter`.  (The `AbstractState::fluid_param_string` retry
loop has no such ceiling — see the counterexample.) -/
theorem claim_c1_free_function_loops_bounded :
    (∀ (gps : Bytes → StrOracle) (param : Bytes),
      ∃ r, (global_param_string gps param).1 = Outcome.ret r)
    ∧ (∀ (gfpsLen : Bytes → Bytes → Int) (gfps : Bytes → Bytes → StrOracle)
        (gps : Bytes → StrOracle) (fluid param : Bytes),
        ∃ r, (fluid_param_string gfpsLen gfps gps fluid param).1 = Outcome.ret r)
    ∧ (∀ (po : Bytes → F64 → Bytes → F64 → Bytes → StrOracle) (gps : Bytes → StrOracle)
        (name1 : Bytes) (prop1 : F64) (name2 : Bytes) (prop2 : F64) (fluid : Bytes),
        ∃ r, (phase_si po gps name1 prop1 name2 prop2 fluid).1 = Outcome.ret r)
    ∧ (∀ (gps : Bytes → StrOracle) (param : Bytes),
        containsNul param = false → (∀ n, (gps param n).1 ≠ 1) →
        ∃ m, (global_param_string gps param).1 =
          Outcome.ret (Except.error (Error.globalParameter param m))) := by
  refine ⟨global_param_string_ret, fluid_param_string_ret, phase_si_ret, ?_⟩
  intro gps param hnul hfail
  obtain ⟨m, hm⟩ := gpsFail_ret gps param
  refine ⟨m, ?_⟩
  have hunfold : global_param_string gps param =
      growLoop (gps param) (fun n => NCall.getGlobalParamString param n) (2 ^ 20)
        (gpsFail gps param) loopFuel 256 := by
    simp [global_param_string, hnul, errstringKey_no_nul]
  have hfuel : loopFuel = 31 + 1 := by norm_num [loopFuel]
  rw [hunfold, hm, hfuel]
  exact growLoop_allFail (gps param) (fun n => NCall.getGlobalParamString param n)
    (2 ^ 20) (Error.globalParameter param m)
    [NCall.getGlobalParamString errstringKey 1024] hfail 31 256 (by omega) (by norm_num)

/-- Witness for the amended C1 with a hypothesis: a concrete native that
always returns status 0 drives `global_param_string` to the ceiling and the
terminal `Error::GlobalParameter`. -/
theorem claim_c1_witness :
    ∃ m, (global_param_string (fun _ _ => ((0 : Int), ([] : Bytes))) (strLit "version")).1 =
      Outcome.ret (Except.error (Error.globalParameter (strLit "version") m)) :=
  claim_c1_free_function_loops_bounded.2.2.2 (fun _ _ => ((0 : Int), ([] : Bytes)))
    (strLit "version") (by decide) (fun n => by simp)

/-! ## Finite-value error channel (src/lib.rs, src/props.rs, src/ha_props.rs) -/

/-- Oracle for `PropsSI`. -/
abbrev PropsOracle := Bytes → Bytes → F64 → Bytes → F64 → Bytes → F64

/-- Oracle for `Props1SI` (argument order `fluid`, `output`, as in the call). -/
abbrev Props1Oracle := Bytes → Bytes → F64

/-- Oracle for `HAPropsSI`. -/
abbrev HaPropsOracle := Bytes → Bytes → F64 → Bytes → F64 → Bytes → F64 → F64

/-- `check_finite_and_report_error` (src/lib.rs): a finite value is returned
unchanged; a non-finite value triggers a `global_param_string("errstring")`
query, whose failure falls back to `"unknown error"`, and becomes
`Error::Computation` with the context and recovered message. -/
def check_finite_and_report_error (gps : Bytes → StrOracle) (value : F64) (context : Bytes) :
    Outcome (Except Error F64) × List NCall :=
  if value.finite then (Outcome.ret (Except.ok value), [])
  else
    match global_param_string gps errstringKey with
    | (Outcome.ret r, tr) =>
      let message := match r with
        | Except.ok m => m
        | Except.error _ => strLit "unknown error"
      (Outcome.ret (Except.error (Error.computation context message)), tr)
    | (Outcome.timeout, tr) => (Outcome.timeout, tr)
    | (Outcome.crash, tr) => (Outcome.crash, tr)

/-- Context string of `props_si` (numeric formatting elided). -/
def propsContext (output name1 name2 fluid : Bytes) : Bytes :=
  strLit "PropsSI(" ++ output ++ strLit ", " ++ name1 ++ strLit ", " ++ name2 ++
    strLit ", " ++ fluid ++ strLit ")"

/-- `props_si` (src/props.rs): reject interior NULs in `output`, `name1`,
`name2`, `fluid` (in that order), run `PropsSI`, then route the value
through the finite-value check. -/
def props_si (po : PropsOracle) (gps : Bytes → StrOracle) (output name1 : Bytes)
    (prop1 : F64) (name2 : Bytes) (prop2 : F64) (fluid : Bytes) :
    Outcome (Except Error F64) × List NCall :=
  if containsNul output then (Outcome.ret (Except.error (Error.embeddedNul "output")), [])
  else if containsNul name1 then (Outcome.ret (Except.error (Error.embeddedNul "name1")), [])
  else if containsNul name2 then (Outcome.ret (Except.error (Error.embeddedNul "name2")), [])
  else if containsNul fluid then (Outcome.ret (Except.error (Error.embeddedNul "fluid")), [])
  else
    let value := po output name1 prop1 name2 prop2 fluid
    let r := check_finite_and_report_error gps value (propsContext output name1 name2 fluid)
    (r.1, NCall.propsSICall output name1 name2 fluid :: r.2)

/-- Context string of `props1_si`. -/
def props1Context (output fluid : Bytes) : Bytes :=
  strLit "Props1SI(" ++ fluid ++ strLit ", " ++ output ++ strLit ")"

/-- `props1_si` (src/props.rs): NUL checks on `output` then `fluid`, the
native `Props1SI(fluid, output)` call, then the finite-value check. -/
def props1_si (po : Props1Oracle) (gps : Bytes → StrOracle) (output fluid : Bytes) :
    Outcome (Except Error F64) × List NCall :=
  if containsNul output then (Outcome.ret (Except.error (Error.embeddedNul "output")), [])
  else if containsNul fluid then (Outcome.ret (Except.error (Error.embeddedNul "fluid")), [])
  else
    let value := po fluid output
    let r := check_finite_and_report_error gps value (props1Context output fluid)
    (r.1, NCall.props1SICall fluid output :: r.2)

/-- Context string of `ha_props_si` (only `output` appears in the format). -/
def haPropsContext (output : Bytes) : Bytes :=
  strLit "HAPropsSI(" ++ output ++ strLit ", ...)"

/-- `ha_props_si` (src/ha_props.rs): NUL checks on `output`, `name1`,
`name2`, `name3`, the native `HAPropsSI` call, then the finite-value
check. -/
def ha_props_si (po : HaPropsOracle) (gps : Bytes → StrOracle) (output name1 : Bytes)
    (prop1 : F64) (name2 : Bytes) (prop2 : F64) (name3 : Bytes) (prop3 : F64) :
    Outcome (Except Error F64) × List NCall :=
  if containsNul output then (Outcome.ret (Except.error (Error.embeddedNul "output")), [])
  else if containsNul name1 then (Outcome.ret (Except.error (Error.embeddedNul "name1")), [])
  else if containsNul name2 then (Outcome.ret (Except.error (Error.embeddedNul "name2")), [])
  else if containsNul name3 then (Outcome.ret (Except.error (Error.embeddedNul "name3")), [])
  else
    let value := po output name1 prop1 name2 prop2 name3 prop3
    let r := check_finite_and_report_error gps value (haPropsContext output)
    (r.1, NCall.haPropsSICall output name1 name2 name3 :: r.2)

theorem check_finite_finite (gps : Bytes → StrOracle) (value : F64) (context : Bytes)
    (h : value.finite = true) :
    check_finite_and_report_error gps value context = (Outcome.ret (Except.ok value), []) := by
  simp [check_finite_and_report_error, h]

theorem check_finite_nonfinite (gps : Bytes → StrOracle) (value : F64) (context : Bytes)
    (h : value.finite = false) :
    check_finite_and_report_error gps value context =
      (Outcome.ret (Except.error (Error.computation context (recoveredErrstring gps))),
       (global_param_string gps errstringKey).2) := by
  obtain ⟨r, hr⟩ := global_param_string_ret gps errstringKey
  rcases hg : global_param_string gps errstringKey with ⟨o, tr⟩
  rw [hg] at hr
  have ho : o = Outcome.ret r := hr
  subst ho
  cases r with
  | ok m => simp [check_finite_and_report_error, recoveredErrstring, h, hg]
  | error e => simp [check_finite_and_report_error, recoveredErrstring, h, hg]

theorem head?_mem {α : Type} {l : List α} {a : α} (h : l.head? = some a) : a ∈ l := by
  cases l with
  | nil => simp at h
  | cons x xs =>
    simp only [List.head?_cons, Option.some.injEq] at h
    rw [h] at *
    exact List.mem_cons_self a xs

/-- The errstring recovery in the finite-value channel performs its first
native call at the default capacity 256. -/
theorem errstring_call_head (gps : Bytes → StrOracle) :
    (global_param_string gps errstringKey).2.head? =
      some (NCall.getGlobalParamString errstringKey 256) := by
  have hunfold : global_param_string gps errstringKey =
      growLoop (gps errstringKey) (fun n => NCall.getGlobalParamString errstringKey n)
        (2 ^ 20) (gpsFail gps errstringKey) loopFuel 256 := by
    simp [global_param_string, errstringKey_no_nul]
  have hfuel : loopFuel = 31 + 1 := by norm_num [loopFuel]
  rw [hunfold, hfuel]
  exact growLoop_trace_head (gps errstringKey)
    (fun n => NCall.getGlobalParamString errstringKey n) (2 ^ 20)
    (gpsFail gps errstringKey) 31 256

/-! ## Global-errstring configuration channel (src/lib.rs) -/

/-- `config_call` (src/lib.rs): read and discard `"errstring"`, run the
void-returning native mutation, read `"errstring"` again; an empty message
is success, a non-empty one becomes `Error::CoolPropGlobalError` with the
context prefixed, and a failure of the read itself is propagated. -/
def config_call (gps : Bytes → StrOracle) (action : NCall) (context : Bytes) :
    Outcome (Except Error Unit) × List NCall :=
  match global_param_string gps errstringKey with
  | (Outcome.timeout, tr1) => (Outcome.timeout, tr1)
  | (Outcome.crash, tr1) => (Outcome.crash, tr1)
  | (Outcome.ret _, tr1) =>
    match global_param_string gps errstringKey with
    | (Outcome.ret (Except.ok after), tr2) =>
      if after = [] then (Outcome.ret (Except.ok ()), tr1 ++ action :: tr2)
      else
        (Outcome.ret (Except.error (Error.coolPropGlobalError
          (context ++ strLit ": " ++ after))), tr1 ++ action :: tr2)
    | (Outcome.ret (Except.error e), tr2) =>
      (Outcome.ret (Except.error e), tr1 ++ action :: tr2)
    | (Outcome.timeout, tr2) => (Outcome.timeout, tr1 ++ action :: tr2)
    | (Outcome.crash, tr2) => (Outcome.crash, tr1 ++ action :: tr2)

/-- Context string of `set_config_string`. -/
def configStringContext (key : Bytes) : Bytes :=
  strLit "set_config_string(" ++ key ++ strLit ")"

/-- Context string of `set_config_double`. -/
def configDoubleContext (key : Bytes) : Bytes :=
  strLit "set_config_double(" ++ key ++ strLit ")"

/-- Context string of `set_config_bool`. -/
def configBoolContext (key : Bytes) : Bytes :=
  strLit "set_config_bool(" ++ key ++ strLit ")"

/-- `set_config_string` (src/lib.rs). -/
def set_config_string (gps : Bytes → StrOracle) (key value : Bytes) :
    Outcome (Except Error Unit) × List NCall :=
  if containsNul key then (Outcome.ret (Except.error (Error.embeddedNul "config key")), [])
  else if containsNul value then
    (Outcome.ret (Except.error (Error.embeddedNul "config value")), [])
  else config_call gps (NCall.setConfigStringCall key value) (configStringContext key)

/-- `set_config_double` (src/lib.rs). -/
def set_config_double (gps : Bytes → StrOracle) (key : Bytes) (value : F64) :
    Outcome (Except Error Unit) × List NCall :=
  if containsNul key then (Outcome.ret (Except.error (Error.embeddedNul "config key")), [])
  else config_call gps (NCall.setConfigDoubleCall key value) (configDoubleContext key)

/-- `set_config_bool` (src/lib.rs). -/
def set_config_bool (gps : Bytes → StrOracle) (key : Bytes) (value : Bool) :
    Outcome (Except Error Unit) × List NCall :=
  if containsNul key then (Outcome.ret (Except.error (Error.embeddedNul "config key")), [])
  else config_call gps (NCall.setConfigBoolCall key value) (configBoolContext key)

/-- Behaviour of `config_call` as a function of the post-mutation
errstring read. -/
theorem config_call_cases (gps : Bytes → StrOracle) (action : NCall) (context : Bytes) :
    (∀ after, (global_param_string gps errstringKey).1 = Outcome.ret (Except.ok after) →
      ((after = [] → (config_call gps action context).1 = Outcome.ret (Except.ok ()))
       ∧ (after ≠ [] → (config_call gps action context).1 =
            Outcome.ret (Except.error (Error.coolPropGlobalError
              (context ++ strLit ": " ++ after))))))
    ∧ (∀ e, (global_param_string gps errstringKey).1 = Outcome.ret (Except.error e) →
        (config_call gps action context).1 = Outcome.ret (Except.error e)) := by
  obtain ⟨r, hr⟩ := global_param_string_ret gps errstringKey
  rcases hg : global_param_string gps errstringKey with ⟨o, tr⟩
  rw [hg] at hr
  have ho : o = Outcome.ret r := hr
  subst ho
  constructor
  · intro after hafter
    have hra : r = Except.ok after := by
      have : Outcome.ret r = Outcome.ret (Except.ok after) := hafter
      exact (Outcome.ret.injEq _ _).mp this
    subst hra
    constructor
    · intro hemp
      simp [config_call, hg, hemp]
    · intro hne
      simp [config_call, hg, hne]
  · intro e he
    have hre : r = Except.error e := by
      have : Outcome.ret r = Outcome.ret (Except.error e) := he
      exact (Outcome.ret.injEq _ _).mp this
    subst hre
    simp [config_call, hg]

theorem config_call_ret (gps : Bytes → StrOracle) (action : NCall) (context : Bytes) :
    ∃ r, (config_call gps action context).1 = Outcome.ret r := by
  obtain ⟨r, hr⟩ := global_param_string_ret gps errstringKey
  rcases hg : global_param_string gps errstringKey with ⟨o, tr⟩
  rw [hg] at hr
  have ho : o = Outcome.ret r := hr
  subst ho
  cases r with
  | ok after =>
    by_cases hemp : after = []
    · exact ⟨Except.ok (), by simp [config_call, hg, hemp]⟩
    · exact ⟨Except.error (Error.coolPropGlobalError (context ++ strLit ": " ++ after)),
        by simp [config_call, hg, hemp]⟩
  | error e => exact ⟨Except.error e, by simp [config_call, hg]⟩

theorem props_si_eq (po : PropsOracle) (gps : Bytes → StrOracle) (output name1 : Bytes)
    (prop1 : F64) (name2 : Bytes) (prop2 : F64) (fluid : Bytes)
    (h1 : containsNul output = false) (h2 : containsNul name1 = false)
    (h3 : containsNul name2 = false) (h4 : containsNul fluid = false) :
    props_si po gps output name1 prop1 name2 prop2 fluid =
      ((check_finite_and_report_error gps (po output name1 prop1 name2 prop2 fluid)
          (propsContext output name1 name2 fluid)).1,
       NCall.propsSICall output name1 name2 fluid ::
        (check_finite_and_report_error gps (po output name1 prop1 name2 prop2 fluid)
          (propsContext output name1 name2 fluid)).2) := by
  simp [props_si, h1, h2, h3, h4]

theorem props1_si_eq (po : Props1Oracle) (gps : Bytes → StrOracle) (output fluid : Bytes)
    (h1 : containsNul output = false) (h2 : containsNul fluid = false) :
    props1_si po gps output fluid =
      ((check_finite_and_report_error gps (po fluid output) (props1Context output fluid)).1,
       NCall.props1SICall fluid output ::
        (check_finite_and_report_error gps (po fluid output) (props1Context output fluid)).2) := by
  simp [props1_si, h1, h2]

theorem ha_props_si_eq (po : HaPropsOracle) (gps : Bytes → StrOracle) (output name1 : Bytes)
    (prop1 : F64) (name2 : Bytes) (prop2 : F64) (name3 : Bytes) (prop3 : F64)
    (h1 : containsNul output = false) (h2 : containsNul name1 = false)
    (h3 : containsNul name2 = false) (h4 : containsNul name3 = false) :
    ha_props_si po gps output name1 prop1 name2 prop2 name3 prop3 =
      ((check_finite_and_report_error gps (po output name1 prop1 name2 prop2 name3 prop3)
          (haPropsContext output)).1,
       NCall.haPropsSICall output name1 name2 name3 ::
        (check_finite_and_report_error gps (po output name1 prop1 name2 prop2 name3 prop3)
          (haPropsContext output)).2) := by
  simp [ha_props_si, h1, h2, h3, h4]

/-- Behaviour of the finite-value channel shared by `props_si`, `props1_si`
and `ha_props_si`: success iff the native value is finite; a non-finite
value becomes `Error::Computation` with the recovered errstring, fetched by
a further native call. -/
theorem finite_channel_spec (gps : Bytes → StrOracle) (v : F64) (context : Bytes)
    (ev : NCall) :
    ((check_finite_and_report_error gps v context).1 = Outcome.ret (Except.ok v) ↔
      v.finite = true)
    ∧ (v.finite = false →
        (check_finite_and_report_error gps v context).1 =
          Outcome.ret (Except.error (Error.computation context (recoveredErrstring gps)))
        ∧ NCall.getGlobalParamString errstringKey 256 ∈
            ev :: (check_finite_and_report_error gps v context).2) := by
  cases hv : v.finite
  · have h := check_finite_nonfinite gps v context hv
    rw [h]
    refine ⟨by simp [hv], fun _ => ⟨rfl, ?_⟩⟩
    exact List.mem_cons_of_mem _ (head?_mem (errstring_call_head gps))
  · have h := check_finite_finite gps v context hv
    rw [h]
    simp [hv]

/-- C4: for NUL-free arguments, `props_si`, `props1_si` and `ha_props_si`
return `Ok(v)` if and only if the native value `v` is finite; a non-finite
value triggers a second native call fetching the global error string and
yields `Err(Error::Computation)` carrying the recovered message. -/
theorem claim_c4_nonfinite_value_error_channel :
    (∀ (po : PropsOracle) (gps : Bytes → StrOracle) (output name1 : Bytes) (prop1 : F64)
      (name2 : Bytes) (prop2 : F64) (fluid : Bytes),
      containsNul output = false → containsNul name1 = false →
      containsNul name2 = false → containsNul fluid = false →
      ((props_si po gps output name1 prop1 name2 prop2 fluid).1 =
          Outcome.ret (Except.ok (po output name1 prop1 name2 prop2 fluid)) ↔
        (po output name1 prop1 name2 prop2 fluid).finite = true)
      ∧ ((po output name1 prop1 name2 prop2 fluid).finite = false →
          (props_si po gps output name1 prop1 name2 prop2 fluid).1 =
            Outcome.ret (Except.error (Error.computation
              (propsContext output name1 name2 fluid) (recoveredErrstring gps)))
          ∧ NCall.getGlobalParamString errstringKey 256 ∈
              (props_si po gps output name1 prop1 name2 prop2 fluid).2))
    ∧ (∀ (po : Props1Oracle) (gps : Bytes → StrOracle) (output fluid : Bytes),
      containsNul output = false → containsNul fluid = false →
      ((props1_si po gps output fluid).1 = Outcome.ret (Except.ok (po fluid output)) ↔
        (po fluid output).finite = true)
      ∧ ((po fluid output).finite = false →
          (props1_si po gps output fluid).1 =
            Outcome.ret (Except.error (Error.computation (props1Context output fluid)
              (recoveredErrstring gps)))
          ∧ NCall.getGlobalParamString errstringKey 256 ∈ (props1_si po gps output fluid).2))
    ∧ (∀ (po : HaPropsOracle) (gps : Bytes → StrOracle) (output name1 : Bytes) (prop1 : F64)
      (name2 : Bytes) (prop2 : F64) (name3 : Bytes) (prop3 : F64),
      containsNul output = false → containsNul name1 = false →
      containsNul name2 = false → containsNul name3 = false →
      ((ha_props_si po gps output name1 prop1 name2 prop2 name3 prop3).1 =
          Outcome.ret (Except.ok (po output name1 prop1 name2 prop2 name3 prop3)) ↔
        (po output name1 prop1 name2 prop2 name3 prop3).finite = true)
      ∧ ((po output name1 prop1 name2 prop2 name3 prop3).finite = false →
          (ha_props_si po gps output name1 prop1 name2 prop2 name3 prop3).1 =
            Outcome.ret (Except.error (Error.computation (haPropsContext output)
              (recoveredErrstring gps)))
          ∧ NCall.getGlobalParamString errstringKey 256 ∈
              (ha_props_si po gps output name1 prop1 name2 prop2 name3 prop3).2)) := by
  refine ⟨?_, ?_, ?_⟩
  · intro po gps output name1 prop1 name2 prop2 fluid h1 h2 h3 h4
    rw [props_si_eq po gps output name1 prop1 name2 prop2 fluid h1 h2 h3 h4]
    exact finite_channel_spec gps _ _ _
  · intro po gps output fluid h1 h2
    rw [props1_si_eq po gps output fluid h1 h2]
    exact finite_channel_spec gps _ _ _
  · intro po gps output name1 prop1 name2 prop2 name3 prop3 h1 h2 h3 h4
    rw [ha_props_si_eq po gps output name1 prop1 name2 prop2 name3 prop3 h1 h2 h3 h4]
    exact finite_channel_spec gps _ _ _

/-- Witness for C4: a concrete `PropsSI` oracle returning a non-finite
value makes `props_si` fetch the error string and fail with
`Error::Computation`. -/
theorem claim_c4_witness :
    (props_si (fun _ _ _ _ _ _ => { finite := false, payload := 0 })
        (fun _ _ => ((1 : Int), strLit "boom")) (strLit "T") (strLit "P")
        { finite := true, payload := 1 } (strLit "Q") { finite := true, payload := 2 }
        (strLit "Water")).1 =
      Outcome.ret (Except.error (Error.computation
        (propsContext (strLit "T") (strLit "P") (strLit "Q") (strLit "Water"))
        (recoveredErrstring (fun _ _ => ((1 : Int), strLit "boom")))))
    ∧ NCall.getGlobalParamString errstringKey 256 ∈
        (props_si (fun _ _ _ _ _ _ => { finite := false, payload := 0 })
          (fun _ _ => ((1 : Int), strLit "boom")) (strLit "T") (strLit "P")
          { finite := true, payload := 1 } (strLit "Q") { finite := true, payload := 2 }
          (strLit "Water")).2 :=
  (claim_c4_nonfinite_value_error_channel.1
    (fun _ _ _ _ _ _ => { finite := false, payload := 0 })
    (fun _ _ => ((1 : Int), strLit "boom")) (strLit "T") (strLit "P")
    { finite := true, payload := 1 } (strLit "Q") { finite := true, payload := 2 }
    (strLit "Water") (by decide) (by decide) (by decide) (by decide)).2 (by decide)

theorem set_config_string_eq (gps : Bytes → StrOracle) (key value : Bytes)
    (hk : containsNul key = false) (hv : containsNul value = false) :
    set_config_string gps key value =
      config_call gps (NCall.setConfigStringCall key value) (configStringContext key) := by
  simp [set_config_string, hk, hv]

theorem set_config_double_eq (gps : Bytes → StrOracle) (key : Bytes) (value : F64)
    (hk : containsNul key = false) :
    set_config_double gps key value =
      config_call gps (NCall.setConfigDoubleCall key value) (configDoubleContext key) := by
  simp [set_config_double, hk]

theorem set_config_bool_eq (gps : Bytes → StrOracle) (key : Bytes) (value : Bool)
    (hk : containsNul key = false) :
    set_config_bool gps key value =
      config_call gps (NCall.setConfigBoolCall key value) (configBoolContext key) := by
  simp [set_config_bool, hk]

theorem config_call_ok_iff (gps : Bytes → StrOracle) (action : NCall) (context : Bytes)
    (after : Bytes)
    (h : (global_param_string gps errstringKey).1 = Outcome.ret (Except.ok after)) :
    (config_call gps action context).1 = Outcome.ret (Except.ok ()) ↔ after = [] := by
  obtain ⟨hcc1, hcc2⟩ := (config_call_cases gps action context).1 after h
  constructor
  · intro hok
    by_contra hne
    rw [hcc2 hne] at hok
    simp at hok
  · intro he
    exact hcc1 he

/-- C5, amended: for NUL-free arguments the config setters return `Ok(())`
iff the post-mutation errstring query yields an empty string; a non-empty
string becomes `Err(Error::CoolPropGlobalError)` carrying the context and
message; but when the errstring query itself fails, its own error (an
`Error::GlobalParameter`, not `CoolPropGlobalError`) is returned instead. -/
theorem claim_c5_config_error_channel :
    ∀ (gps : Bytes → StrOracle) (key value : Bytes) (dv : F64) (bv : Bool),
      containsNul key = false → containsNul value = false →
      ((∀ after,
          (global_param_string gps errstringKey).1 = Outcome.ret (Except.ok after) →
          (((set_config_string gps key value).1 = Outcome.ret (Except.ok ()) ↔ after = [])
           ∧ ((set_config_double gps key dv).1 = Outcome.ret (Except.ok ()) ↔ after = [])
           ∧ ((set_config_bool gps key bv).1 = Outcome.ret (Except.ok ()) ↔ after = [])
           ∧ (after ≠ [] →
              (set_config_string gps key value).1 = Outcome.ret (Except.error
                (Error.coolPropGlobalError (configStringContext key ++ strLit ": " ++ after)))
              ∧ (set_config_double gps key dv).1 = Outcome.ret (Except.error
                (Error.coolPropGlobalError (configDoubleContext key ++ strLit ": " ++ after)))
              ∧ (set_config_bool gps key bv).1 = Outcome.ret (Except.error
                (Error.coolPropGlobalError (configBoolContext key ++ strLit ": " ++ after))))))
       ∧ (∀ e, (global_param_string gps errstringKey).1 = Outcome.ret (Except.error e) →
           (set_config_string gps key value).1 = Outcome.ret (Except.error e)
           ∧ (set_config_double gps key dv).1 = Outcome.ret (Except.error e)
           ∧ (set_config_bool gps key bv).1 = Outcome.ret (Except.error e))) := by
  intro gps key value dv bv hk hv
  rw [set_config_string_eq gps key value hk hv, set_config_double_eq gps key dv hk,
    set_config_bool_eq gps key bv hk]
  constructor
  · intro after hafter
    refine ⟨config_call_ok_iff gps _ _ after hafter,
      config_call_ok_iff gps _ _ after hafter,
      config_call_ok_iff gps _ _ after hafter, ?_⟩
    intro hne
    exact ⟨((config_call_cases gps _ _).1 after hafter).2 hne,
      ((config_call_cases gps _ _).1 after hafter).2 hne,
      ((config_call_cases gps _ _).1 after hafter).2 hne⟩
  · intro e he
    exact ⟨(config_call_cases gps _ _).2 e he, (config_call_cases gps _ _).2 e he,
      (config_call_cases gps _ _).2 e he⟩

/-- The shape the C5 claim asserts for every config-setter outcome. -/
def ClaimC5Shape (r : Outcome (Except Error Unit)) : Prop :=
  r = Outcome.ret (Except.ok ()) ∨
    ∃ m, r = Outcome.ret (Except.error (Error.coolPropGlobalError m))

/-- A native behaviour whose `get_global_param_string` always reports
failure, so the errstring query itself fails at the ceiling. -/
def badGps : Bytes → StrOracle := fun _ _ => ((0 : Int), ([] : Bytes))

/-- C5, counterexample: with NUL-free arguments but a native whose
errstring query fails, `set_config_double` returns neither `Ok(())` nor
`Err(Error::CoolPropGlobalError)` — it propagates the query's own
`Error::GlobalParameter` — so the claim's dichotomy is false. -/
theorem claim_c5_counterexample :
    ¬ ClaimC5Shape (set_config_double badGps (strLit "R_U_CODATA")
      { finite := true, payload := 0 }).1 := by
  obtain ⟨m, hm⟩ := gpsFail_ret badGps errstringKey
  have hfail : ∀ n, ((badGps errstringKey n).1 : Int) ≠ 1 := fun n => by
    simp [badGps]
  have hunfold : global_param_string badGps errstringKey =
      growLoop (badGps errstringKey) (fun n => NCall.getGlobalParamString errstringKey n)
        (2 ^ 20) (gpsFail badGps errstringKey) loopFuel 256 := by
    simp [global_param_string, errstringKey_no_nul]
  have hglob : (global_param_string badGps errstringKey).1 =
      Outcome.ret (Except.error (Error.globalParameter errstringKey m)) := by
    rw [hunfold, hm]
    have hfuel : loopFuel = 31 + 1 := by norm_num [loopFuel]
    rw [hfuel]
    exact growLoop_allFail _ _ _ _ _ hfail 31 256 (by omega) (by norm_num)
  have hres : (set_config_double badGps (strLit "R_U_CODATA")
      { finite := true, payload := 0 }).1 =
      Outcome.ret (Except.error (Error.globalParameter errstringKey m)) := by
    rw [set_config_double_eq badGps (strLit "R_U_CODATA")
      { finite := true, payload := 0 } (by decide)]
    exact (config_call_cases badGps _ _).2 _ hglob
  rw [hres]
  unfold ClaimC5Shape
  rintro (h | ⟨m2, h⟩)
  · simp at h
  · simp at h

/-- Witness for the amended C5: a concrete native whose errstring query
succeeds with an empty message lets `set_config_string` return `Ok(())`. -/
theorem claim_c5_witness :
    (set_config_string (fun _ _ => ((1 : Int), ([] : Bytes)))
      (strLit "FLOAT_PUNCTUATION") (strLit ".")).1 = Outcome.ret (Except.ok ()) :=
  ((claim_c5_config_error_channel (fun _ _ => ((1 : Int), ([] : Bytes)))
      (strLit "FLOAT_PUNCTUATION") (strLit ".") { finite := true, payload := 0 } true
      (by decide) (by decide)).1 [] (by decide)).1.mpr rfl

/-! ## Enum-to-index tables (src/indices.rs) -/

/-- The `InputPair` tokens, in declaration order (src/indices.rs). -/
def inputPairTokens : List String :=
  ["PT_INPUTS", "QT_INPUTS", "PQ_INPUTS", "QSmolar_INPUTS", "QSmass_INPUTS",
   "HmolarQ_INPUTS", "HmassQ_INPUTS", "DmolarQ_INPUTS", "DmassQ_INPUTS",
   "HmolarP_INPUTS", "HmassP_INPUTS", "PSmolar_INPUTS", "PSmass_INPUTS",
   "PUmolar_INPUTS", "PUmass_INPUTS", "HmolarSmolar_INPUTS", "HmassSmass_INPUTS",
   "SmolarT_INPUTS", "SmassT_INPUTS", "DmolarT_INPUTS", "DmassT_INPUTS",
   "DmolarP_INPUTS", "DmassP_INPUTS", "DmolarHmolar_INPUTS", "DmassHmass_INPUTS",
   "DmolarSmolar_INPUTS", "DmassSmass_INPUTS", "DmolarUmolar_INPUTS",
   "DmassUmass_INPUTS", "HmolarT_INPUTS", "HmassT_INPUTS", "TUmolar_INPUTS",
   "TUmass_INPUTS"]

/-- The `Param` tokens, in declaration order (src/indices.rs); the trailing
aliases repeat earlier tokens exactly as in the source. -/
def paramTokens : List String :=
  ["T", "P", "Dmolar", "Hmolar", "Smolar", "Umolar", "Gmolar", "Helmholtzmolar",
   "Dmass", "Hmass", "Smass", "Umass", "Gmass", "Helmholtzmass", "Q", "Delta",
   "Tau", "Cpmolar", "Cpmass", "Cvmolar", "Cvmass", "Cp0molar", "Cp0mass",
   "Hmolar_residual", "Smolar_residual", "Gmolar_residual", "Hmolar_idealgas",
   "Smolar_idealgas", "Umolar_idealgas", "Hmass_idealgas", "Smass_idealgas",
   "Umass_idealgas", "GWP20", "GWP100", "GWP500", "FH", "HH", "PH", "ODP",
   "Bvirial", "Cvirial", "dBvirial_dT", "dCvirial_dT", "gas_constant",
   "molar_mass", "acentric", "dipole_moment", "rhomass_reducing",
   "rhomolar_reducing", "rhomolar_critical", "rhomass_critical", "T_reducing",
   "T_critical", "T_triple", "T_max", "T_min", "P_min", "P_max", "p_critical",
   "p_reducing", "p_triple", "fraction_min", "fraction_max", "T_freeze",
   "speed_of_sound", "viscosity", "conductivity", "surface_tension", "Prandtl",
   "isothermal_compressibility", "isobaric_expansion_coefficient",
   "isentropic_expansion_coefficient", "Z",
   "fundamental_derivative_of_gas_dynamics", "PIP", "alphar",
   "dalphar_dtau_constdelta", "dalphar_ddelta_consttau", "alpha0",
   "dalpha0_dtau_constdelta", "dalpha0_ddelta_consttau",
   "d2alpha0_ddelta2_consttau", "d3alpha0_ddelta3_consttau", "Phase",
   "Umolar_idealgas", "Hmolar_idealgas", "Smolar_idealgas", "Umass_idealgas",
   "Hmass_idealgas", "Smass_idealgas"]

/-- An `InputPair` variant, identified by its declaration position. -/
abbrev InputPair := Fin inputPairTokens.length

/-- A `Param` variant, identified by its declaration position. -/
abbrev Param := Fin paramTokens.length

/-- The `Indices` table (src/indices.rs): native ids for every `InputPair`
and every `Param` variant, in declaration order. -/
structure IndicesM where
  input_pair_ids : List Int
  param_ids : List Int
deriving DecidableEq, Repr

/-- The two index-resolution native entry points
(`get_input_pair_index`, `get_param_index`). -/
structure IndexOracle where
  pairIndex : Bytes → Int
  paramIndex : Bytes → Int

/-- `Indices::load` (src/indices.rs): query the native index of every
variant token. -/
def Indices.load (o : IndexOracle) : IndicesM :=
  { input_pair_ids := inputPairTokens.map (fun t => o.pairIndex (strLit t)),
    param_ids := paramTokens.map (fun t => o.paramIndex (strLit t)) }

/-- The native calls performed by `Indices::load`, in order. -/
def indexCallTrace : List NCall :=
  inputPairTokens.map (fun t => NCall.getInputPairIndex (strLit t)) ++
    paramTokens.map (fun t => NCall.getParamIndex (strLit t))

/-- `Indices::id_of_pair`. -/
def id_of_pair (i : IndicesM) (p : InputPair) : Int := i.input_pair_ids.getD p.1 0

/-- `Indices::id_of_param`. -/
def id_of_param (i : IndicesM) (p : Param) : Int := i.param_ids.getD p.1 0

/-- `global_indices` (src/indices.rs): the `OnceLock` cache, threaded
explicitly — a filled cache is returned as is with no native call; an empty
cache is filled by `Indices::load` and the loaded table returned. -/
def global_indices (cache : Option IndicesM) (o : IndexOracle) :
    (IndicesM × List NCall) × Option IndicesM :=
  match cache with
  | some i => ((i, []), some i)
  | none =>
    let c := Indices.load o
    ((c, indexCallTrace), some c)

/-- A sequence of `global_indices` calls, each possibly observing different
native behaviour, threading the process-wide cache. -/
def runIndexCalls (cache : Option IndicesM) : List IndexOracle → List IndicesM
  | [] => []
  | o :: os =>
    let r := global_indices cache o
    r.1.1 :: runIndexCalls r.2 os

theorem runIndexCalls_cached (i : IndicesM) :
    ∀ (os : List IndexOracle) (j : IndicesM), j ∈ runIndexCalls (some i) os → j = i := by
  intro os
  induction os with
  | nil => intro j hj; simp [runIndexCalls] at hj
  | cons o os ih =>
    intro j hj
    simp only [runIndexCalls, global_indices, List.mem_cons] at hj
    rcases hj with hj | hj
    · exact hj
    · exact ih j hj

/-- C7: the enum-to-index mapping is resolved at most once per process: a
filled cache is returned unchanged with no native call, an empty cache is
filled from the first call's native responses, and every later call —
whatever the native would now answer — returns the first call's table, so
`id_of_pair` and `id_of_param` are constant across the process lifetime. -/
theorem claim_c7_indices_resolved_once :
    (∀ (i : IndicesM) (o : IndexOracle), global_indices (some i) o = ((i, []), some i))
    ∧ (∀ (o : IndexOracle),
        global_indices none o = ((Indices.load o, indexCallTrace), some (Indices.load o)))
    ∧ (∀ (o : IndexOracle) (os : List IndexOracle) (j : IndicesM),
        j ∈ runIndexCalls none (o :: os) → j = Indices.load o)
    ∧ (∀ (o : IndexOracle) (os : List IndexOracle) (j : IndicesM),
        j ∈ runIndexCalls none (o :: os) → ∀ (p : InputPair) (q : Param),
        id_of_pair j p = id_of_pair (Indices.load o) p ∧
        id_of_param j q = id_of_param (Indices.load o) q) := by
  have key : ∀ (o : IndexOracle) (os : List IndexOracle) (j : IndicesM),
      j ∈ runIndexCalls none (o :: os) → j = Indices.load o := by
    intro o os j hj
    simp only [runIndexCalls, global_indices, List.mem_cons] at hj
    rcases hj with hj | hj
    · exact hj
    · exact runIndexCalls_cached (Indices.load o) os j hj
  refine ⟨fun i o => rfl, fun o => rfl, key, ?_⟩
  intro o os j hj p q
  rw [key o os j hj]
  exact ⟨rfl, rfl⟩

/-- Witness for C7: across two calls with different native behaviours, the
second call still observes the first call's table. -/
theorem claim_c7_witness :
    id_of_pair (Indices.load { pairIndex := fun _ => 5, paramIndex := fun _ => 7 })
        ⟨0, by decide⟩ =
      id_of_pair (Indices.load { pairIndex := fun _ => 5, paramIndex := fun _ => 7 })
        ⟨0, by decide⟩
    ∧ id_of_param (Indices.load { pairIndex := fun _ => 5, paramIndex := fun _ => 7 })
        ⟨0, by decide⟩ =
      id_of_param (Indices.load { pairIndex := fun _ => 5, paramIndex := fun _ => 7 })
        ⟨0, by decide⟩ :=
  claim_c7_indices_resolved_once.2.2.2
    { pairIndex := fun _ => 5, paramIndex := fun _ => 7 }
    [{ pairIndex := fun _ => 9, paramIndex := fun _ => 11 }]
    (Indices.load { pairIndex := fun _ => 5, paramIndex := fun _ => 7 })
    (by simp [runIndexCalls, global_indices]) ⟨0, by decide⟩ ⟨0, by decide⟩

/-! ## Phase classification (src/indices.rs, src/abstract_state.rs) -/

/-- The `Phase` enum (src/indices.rs). -/
inductive Phase where
  | liquid
  | supercritical
  | supercriticalGas
  | supercriticalLiquid
  | criticalPoint
  | gas
  | twoPhase
  | unknown
  | notImposed
deriving DecidableEq, Repr

/-- `Phase::from_code` (src/indices.rs). -/
def Phase.from_code (code : Int) : Option Phase :=
  if code = 0 then some Phase.liquid
  else if code = 1 then some Phase.supercritical
  else if code = 2 then some Phase.supercriticalGas
  else if code = 3 then some Phase.supercriticalLiquid
  else if code = 4 then some Phase.criticalPoint
  else if code = 5 then some Phase.gas
  else if code = 6 then some Phase.twoPhase
  else if code = 7 then some Phase.unknown
  else if code = 8 then some Phase.notImposed
  else none

/-- The wrapper-side state of an `AbstractState`: the resolved index table
and the native handle. -/
structure ASModel where
  indices : IndicesM
  handle : Int
deriving DecidableEq, Repr

/-- Oracle for `AbstractState_phase`. -/
abbrev AsPhaseOracle := Int → CallResp Int

/-- `AbstractState::phase` (src/abstract_state.rs): run the native phase
query through `call_with_error`, then map the code through
`Phase::from_code`, turning unknown codes into `Error::UnknownPhaseCode`. -/
def as_phase (o : AsPhaseOracle) (st : ASModel) :
    Outcome (Except Error Phase) × List NCall :=
  match call_with_error (o st.handle) with
  | Except.error e => (Outcome.ret (Except.error e), [NCall.absPhase])
  | Except.ok code =>
    match Phase.from_code code with
    | some p => (Outcome.ret (Except.ok p), [NCall.absPhase])
    | none => (Outcome.ret (Except.error (Error.unknownPhaseCode code)), [NCall.absPhase])

/-- C10: `AbstractState::phase` maps native phase codes by the fixed table
0→Liquid, 1→Supercritical, 2→SupercriticalGas, 3→SupercriticalLiquid,
4→CriticalPoint, 5→Gas, 6→TwoPhase, 7→Unknown, 8→NotImposed, and every code
outside `0..=8` (with the native call reporting no error) becomes
`Err(Error::UnknownPhaseCode)` carrying that code. -/
theorem claim_c10_phase_code_table :
    (Phase.from_code 0 = some Phase.liquid
     ∧ Phase.from_code 1 = some Phase.supercritical
     ∧ Phase.from_code 2 = some Phase.supercriticalGas
     ∧ Phase.from_code 3 = some Phase.supercriticalLiquid
     ∧ Phase.from_code 4 = some Phase.criticalPoint
     ∧ Phase.from_code 5 = some Phase.gas
     ∧ Phase.from_code 6 = some Phase.twoPhase
     ∧ Phase.from_code 7 = some Phase.unknown
     ∧ Phase.from_code 8 = some Phase.notImposed)
    ∧ (∀ code : Int, code < 0 ∨ 8 < code → Phase.from_code code = none)
    ∧ (∀ (o : AsPhaseOracle) (st : ASModel), (o st.handle).status = 0 →
        ((∀ p, Phase.from_code (o st.handle).val = some p →
          (as_phase o st).1 = Outcome.ret (Except.ok p))
         ∧ (Phase.from_code (o st.handle).val = none →
          (as_phase o st).1 =
            Outcome.ret (Except.error (Error.unknownPhaseCode (o st.handle).val))))) := by
  refine ⟨by decide, ?_, ?_⟩
  · intro code hc
    unfold Phase.from_code
    split_ifs <;> first | rfl | omega
  · intro o st h0
    have hok := call_with_error_ok (o st.handle) h0
    constructor
    · intro p hp
      simp [as_phase, hok, hp]
    · intro hn
      simp [as_phase, hok, hn]

/-- Witness for C10: a native phase query returning status 0 and code 9
yields `Err(Error::UnknownPhaseCode(9))`. -/
theorem claim_c10_witness :
    (as_phase (fun _ => { status := 0, msg := [], val := (9 : Int) })
      { indices := { input_pair_ids := [], param_ids := [] }, handle := 1 }).1 =
      Outcome.ret (Except.error (Error.unknownPhaseCode 9)) :=
  ((claim_c10_phase_code_table.2.2 (fun _ => { status := 0, msg := [], val := (9 : Int) })
    { indices := { input_pair_ids := [], param_ids := [] }, handle := 1 }
    (by decide)).2 (by decide))

/-! ## Handle lifecycle (src/abstract_state.rs) -/

/-- Oracle for `AbstractState_factory`: status, message and the new
handle. -/
abbrev FactoryOracle := Bytes → Bytes → CallResp Int

/-- `AbstractState::new` (src/abstract_state.rs): resolve the global index
table first, then reject interior NULs in `backend` and `fluid`, then
acquire the native handle through `call_with_error` around
`AbstractState_factory`.  The process-wide cache is threaded explicitly. -/
def AbstractState.new (io : IndexOracle) (cache : Option IndicesM) (factory : FactoryOracle)
    (backend fluid : Bytes) :
    (Except Error ASModel × List NCall) × Option IndicesM :=
  let gi := global_indices cache io
  if containsNul backend then
    ((Except.error (Error.embeddedNul "backend"), gi.1.2), gi.2)
  else if containsNul fluid then
    ((Except.error (Error.embeddedNul "fluid"), gi.1.2), gi.2)
  else
    match call_with_error (factory backend fluid) with
    | Except.error e =>
      ((Except.error e, gi.1.2 ++ [NCall.absFactory backend fluid]), gi.2)
    | Except.ok h =>
      ((Except.ok { indices := gi.1.1, handle := h },
        gi.1.2 ++ [NCall.absFactory backend fluid]), gi.2)

/-- `Drop for AbstractState` (src/abstract_state.rs): a single
`AbstractState_free` native call whose result is discarded. -/
def AbstractState.drop (free : Int → CallResp Unit) (st : ASModel) : List NCall :=
  let _ := call_with_error (free st.handle)
  [NCall.absFree]

/-- Events of one `AbstractState` value's lifetime: a handle-based wrapper
operation, or the release in `Drop`. -/
inductive LifeEvent where
  | opCall
  | free
deriving DecidableEq, Repr

/-- The ownership discipline Rust enforces on an `AbstractState` value,
as a transition system: `true` is a live (owned) value, `false` a dropped
one.  Wrapper operations require the value to be live (they borrow it);
`Drop::drop` consumes it; no transition leaves the dropped state, which is
how the borrow checker makes the value unobservable after release. -/
inductive LifeTrace : Bool → List LifeEvent → Bool → Prop where
  | nil (s : Bool) : LifeTrace s [] s
  | op (tr : List LifeEvent) (b : Bool) :
      LifeTrace true tr b → LifeTrace true (LifeEvent.opCall :: tr) b
  | freeStep (tr : List LifeEvent) (b : Bool) :
      LifeTrace false tr b → LifeTrace true (LifeEvent.free :: tr) b

theorem lifeTrace_freed_nil (tr : List LifeEvent) (b : Bool)
    (h : LifeTrace false tr b) : tr = [] ∧ b = false := by
  cases h
  exact ⟨rfl, rfl⟩

/-- A complete lifetime is some wrapper operations followed by exactly one
release, with nothing after it. -/
theorem lifeTrace_complete (s b : Bool) (tr : List LifeEvent) (h : LifeTrace s tr b) :
    s = true → b = false →
    ∃ n, tr = List.replicate n LifeEvent.opCall ++ [LifeEvent.free] := by
  induction h with
  | nil s =>
    intro hs hb
    rw [hs] at hb
    exact Bool.noConfusion hb
  | op tr b htr ih =>
    intro _ hb
    obtain ⟨n, hn⟩ := ih rfl hb
    exact ⟨n + 1, by simp [hn, List.replicate_succ]⟩
  | freeStep tr b htr ih =>
    intro _ _
    obtain ⟨hnil, _⟩ := lifeTrace_freed_nil tr b htr
    exact ⟨0, by simp [hnil]⟩

theorem lifeTrace_live_no_free (s b : Bool) (tr : List LifeEvent) (h : LifeTrace s tr b) :
    b = true → tr.count LifeEvent.free = 0 := by
  induction h with
  | nil s => intro _; rfl
  | op tr b htr ih =>
    intro hb
    simp [List.count_cons, ih hb]
  | freeStep tr b htr ih =>
    intro hb
    obtain ⟨_, hb2⟩ := lifeTrace_freed_nil tr b htr
    exact Bool.noConfusion (hb2 ▸ hb)

theorem absFactory_not_mem_indexTrace (backend fluid : Bytes) :
    NCall.absFactory backend fluid ∉ indexCallTrace := by
  intro h
  simp only [indexCallTrace, List.mem_append, List.mem_map] at h
  rcases h with ⟨t, _, ht⟩ | ⟨t, _, ht⟩ <;> exact NCall.noConfusion ht

theorem absFree_not_mem_indexTrace : NCall.absFree ∉ indexCallTrace := by
  intro h
  simp only [indexCallTrace, List.mem_append, List.mem_map] at h
  rcases h with ⟨t, _, ht⟩ | ⟨t, _, ht⟩ <;> exact NCall.noConfusion ht

theorem gi_trace_cases (cache : Option IndicesM) (io : IndexOracle) :
    (global_indices cache io).1.2 = [] ∨ (global_indices cache io).1.2 = indexCallTrace := by
  cases cache with
  | none => exact Or.inr rfl
  | some i => exact Or.inl rfl

theorem new_ok_trace (io : IndexOracle) (cache : Option IndicesM) (factory : FactoryOracle)
    (backend fluid : Bytes) (st : ASModel) (tr : List NCall) (cache2 : Option IndicesM)
    (h : AbstractState.new io cache factory backend fluid = ((Except.ok st, tr), cache2)) :
    tr = (global_indices cache io).1.2 ++ [NCall.absFactory backend fluid] := by
  by_cases hb : containsNul backend
  · simp [AbstractState.new, hb] at h
  · by_cases hf : containsNul fluid
    · simp [AbstractState.new, hb, hf] at h
    · rcases hfc : call_with_error (factory backend fluid) with e | hv
      · simp [AbstractState.new, hb, hf, hfc] at h
      · simp [AbstractState.new, hb, hf, hfc] at h
        exact h.1.2.symm

/-- C2: the native handle is acquired exactly once at construction — a
successful `AbstractState::new` performs exactly one `AbstractState_factory`
call and no release — `Drop` performs exactly one `AbstractState_free`
call, and under the ownership discipline Rust enforces (embedded as the
`LifeTrace` transition system) a complete lifetime consists of wrapper
operations followed by exactly one release with nothing after it, while a
still-live value has performed no release. -/
theorem claim_c2_handle_acquire_release_once :
    (∀ (io : IndexOracle) (cache : Option IndicesM) (factory : FactoryOracle)
      (backend fluid : Bytes) (st : ASModel) (tr : List NCall) (cache2 : Option IndicesM),
      AbstractState.new io cache factory backend fluid = ((Except.ok st, tr), cache2) →
      tr.count (NCall.absFactory backend fluid) = 1 ∧ NCall.absFree ∉ tr)
    ∧ (∀ (free : Int → CallResp Unit) (st : ASModel),
        (AbstractState.drop free st).count NCall.absFree = 1)
    ∧ (∀ (s b : Bool) (tr : List LifeEvent), LifeTrace s tr b → s = true → b = false →
        ∃ n, tr = List.replicate n LifeEvent.opCall ++ [LifeEvent.free])
    ∧ (∀ (s b : Bool) (tr : List LifeEvent), LifeTrace s tr b → b = true →
        tr.count LifeEvent.free = 0) := by
  refine ⟨?_, fun free st => rfl, lifeTrace_complete, lifeTrace_live_no_free⟩
  intro io cache factory backend fluid st tr cache2 h
  have htr := new_ok_trace io cache factory backend fluid st tr cache2 h
  subst htr
  constructor
  · rw [List.count_append]
    have hidx : (global_indices cache io).1.2.count (NCall.absFactory backend fluid) = 0 := by
      rcases gi_trace_cases cache io with hc | hc <;> rw [hc]
      · rfl
      · exact List.count_eq_zero.mpr (absFactory_not_mem_indexTrace backend fluid)
    rw [hidx]
    simp
  · intro hmem
    rcases List.mem_append.mp hmem with hm | hm
    · rcases gi_trace_cases cache io with hc | hc
      · rw [hc] at hm
        simp at hm
      · rw [hc] at hm
        exact absFree_not_mem_indexTrace hm
    · simp at hm

/-- Witness for C2 at a concrete successful construction (warm cache), a
concrete drop, and a concrete complete lifetime trace. -/
theorem claim_c2_witness :
    ((AbstractState.new { pairIndex := fun _ => 0, paramIndex := fun _ => 0 }
        (some { input_pair_ids := [], param_ids := [] })
        (fun _ _ => { status := 0, msg := [], val := 7 })
        (strLit "HEOS") (strLit "Water")).1.2.count
          (NCall.absFactory (strLit "HEOS") (strLit "Water")) = 1
      ∧ NCall.absFree ∉ (AbstractState.new { pairIndex := fun _ => 0, paramIndex := fun _ => 0 }
        (some { input_pair_ids := [], param_ids := [] })
        (fun _ _ => { status := 0, msg := [], val := 7 })
        (strLit "HEOS") (strLit "Water")).1.2)
    ∧ (∃ n, [LifeEvent.opCall, LifeEvent.free] =
        List.replicate n LifeEvent.opCall ++ [LifeEvent.free]) :=
  ⟨claim_c2_handle_acquire_release_once.1
      { pairIndex := fun _ => 0, paramIndex := fun _ => 0 }
      (some { input_pair_ids := [], param_ids := [] })
      (fun _ _ => { status := 0, msg := [], val := 7 })
      (strLit "HEOS") (strLit "Water")
      { indices := { input_pair_ids := [], param_ids := [] }, handle := 7 }
      [NCall.absFactory (strLit "HEOS") (strLit "Water")]
      (some { input_pair_ids := [], param_ids := [] }) (by decide),
   claim_c2_handle_acquire_release_once.2.2.1 true false
     [LifeEvent.opCall, LifeEvent.free]
     (LifeTrace.op _ _ (LifeTrace.freeStep _ _ (LifeTrace.nil false))) rfl rfl⟩

/-! ## `Send`/`Sync` auto traits for `AbstractState` (src/abstract_state.rs)

`AbstractState` is a plain struct with fields `indices: &'static Indices`,
`handle: c_long` and `_not_sync: PhantomData<Cell<()>>`; its `Send`/`Sync`
status is derived by Rust's auto-trait rules, embedded here for the type
grammar the struct uses. -/

/-- The fragment of Rust's type grammar needed for `AbstractState`. -/
inductive RType where
  | cLong
  | unitType
  | cell (t : RType)
  | phantomData (t : RType)
  | staticRef (t : RType)
  | boxedSlice (t : RType)
  | struct2 (a b : RType)
  | struct3 (a b c : RType)
deriving DecidableEq, Repr

/-- Rust's `Sync` auto-trait derivation: `Cell<T>` is never `Sync`;
`&T`, `Box<[T]>`, `PhantomData<T>` follow `T`; structs follow all fields. -/
def rustSync : RType → Bool
  | RType.cLong => true
  | RType.unitType => true
  | RType.cell _ => false
  | RType.phantomData t => rustSync t
  | RType.staticRef t => rustSync t
  | RType.boxedSlice t => rustSync t
  | RType.struct2 a b => rustSync a && rustSync b
  | RType.struct3 a b c => rustSync a && rustSync b && rustSync c

/-- Rust's `Send` auto-trait derivation: `&'static T` is `Send` iff `T` is
`Sync`; `Cell<T>`, `Box<[T]>`, `PhantomData<T>` follow `T`; structs follow
all fields. -/
def rustSend : RType → Bool
  | RType.cLong => true
  | RType.unitType => true
  | RType.cell t => rustSend t
  | RType.phantomData t => rustSend t
  | RType.staticRef t => rustSync t
  | RType.boxedSlice t => rustSend t
  | RType.struct2 a b => rustSend a && rustSend b
  | RType.struct3 a b c => rustSend a && rustSend b && rustSend c

/-- `Indices` (src/indices.rs): two boxed slices of `c_long`. -/
def indicesType : RType :=
  RType.struct2 (RType.boxedSlice RType.cLong) (RType.boxedSlice RType.cLong)

/-- `AbstractState` (src/abstract_state.rs): `&'static Indices`, `c_long`,
and the `PhantomData<Cell<()>>` marker that suppresses `Sync`. -/
def abstractStateType : RType :=
  RType.struct3 (RType.staticRef indicesType) RType.cLong
    (RType.phantomData (RType.cell RType.unitType))

/-- C8: under Rust's auto-trait rules, `AbstractState` is `Send` (so it can
move across threads) but not `Sync` (so it cannot be shared concurrently):
the `PhantomData<Cell<()>>` marker suppresses `Sync` while leaving `Send`,
and without that marker the remaining fields would have been `Sync`. -/
theorem claim_c8_send_not_sync :
    rustSend abstractStateType = true
    ∧ rustSync abstractStateType = false
    ∧ rustSync (RType.struct2 (RType.staticRef indicesType) RType.cLong) = true := by
  decide

/-! ## Panic-freedom of the modelled wrapper operations -/

theorem ret_ne_crash {α : Type} {x : Outcome α} (h : ∃ r, x = Outcome.ret r) :
    x ≠ Outcome.crash := by
  obtain ⟨r, hr⟩ := h
  rw [hr]
  exact fun hc => Outcome.noConfusion hc

theorem check_finite_ret (gps : Bytes → StrOracle) (v : F64) (context : Bytes) :
    ∃ r, (check_finite_and_report_error gps v context).1 = Outcome.ret r := by
  cases hv : v.finite
  · rw [check_finite_nonfinite gps v context hv]
    exact ⟨Except.error (Error.computation context (recoveredErrstring gps)), rfl⟩
  · rw [check_finite_finite gps v context hv]
    exact ⟨Except.ok v, rfl⟩

theorem props_si_ret (po : PropsOracle) (gps : Bytes → StrOracle) (output name1 : Bytes)
    (prop1 : F64) (name2 : Bytes) (prop2 : F64) (fluid : Bytes) :
    ∃ r, (props_si po gps output name1 prop1 name2 prop2 fluid).1 = Outcome.ret r := by
  by_cases h1 : containsNul output
  · exact ⟨Except.error (Error.embeddedNul "output"), by simp [props_si, h1]⟩
  by_cases h2 : containsNul name1
  · exact ⟨Except.error (Error.embeddedNul "name1"), by simp [props_si, h1, h2]⟩
  by_cases h3 : containsNul name2
  · exact ⟨Except.error (Error.embeddedNul "name2"), by simp [props_si, h1, h2, h3]⟩
  by_cases h4 : containsNul fluid
  · exact ⟨Except.error (Error.embeddedNul "fluid"), by simp [props_si, h1, h2, h3, h4]⟩
  rw [props_si_eq po gps output name1 prop1 name2 prop2 fluid (by simpa using h1)
    (by simpa using h2) (by simpa using h3) (by simpa using h4)]
  exact check_finite_ret gps _ _

theorem props1_si_ret (po : Props1Oracle) (gps : Bytes → StrOracle) (output fluid : Bytes) :
    ∃ r, (props1_si po gps output fluid).1 = Outcome.ret r := by
  by_cases h1 : containsNul output
  · exact ⟨Except.error (Error.embeddedNul "output"), by simp [props1_si, h1]⟩
  by_cases h2 : containsNul fluid
  · exact ⟨Except.error (Error.embeddedNul "fluid"), by simp [props1_si, h1, h2]⟩
  rw [props1_si_eq po gps output fluid (by simpa using h1) (by simpa using h2)]
  exact check_finite_ret gps _ _

theorem ha_props_si_ret (po : HaPropsOracle) (gps : Bytes → StrOracle) (output name1 : Bytes)
    (prop1 : F64) (name2 : Bytes) (prop2 : F64) (name3 : Bytes) (prop3 : F64) :
    ∃ r, (ha_props_si po gps output name1 prop1 name2 prop2 name3 prop3).1 =
      Outcome.ret r := by
  by_cases h1 : containsNul output
  · exact ⟨Except.error (Error.embeddedNul "output"), by simp [ha_props_si, h1]⟩
  by_cases h2 : containsNul name1
  · exact ⟨Except.error (Error.embeddedNul "name1"), by simp [ha_props_si, h1, h2]⟩
  by_cases h3 : containsNul name2
  · exact ⟨Except.error (Error.embeddedNul "name2"), by simp [ha_props_si, h1, h2, h3]⟩
  by_cases h4 : containsNul name3
  · exact ⟨Except.error (Error.embeddedNul "name3"), by simp [ha_props_si, h1, h2, h3, h4]⟩
  rw [ha_props_si_eq po gps output name1 prop1 name2 prop2 name3 prop3 (by simpa using h1)
    (by simpa using h2) (by simpa using h3) (by simpa using h4)]
  exact check_finite_ret gps _ _

theorem set_config_string_ret (gps : Bytes → StrOracle) (key value : Bytes) :
    ∃ r, (set_config_string gps key value).1 = Outcome.ret r := by
  by_cases hk : containsNul key
  · exact ⟨Except.error (Error.embeddedNul "config key"), by simp [set_config_string, hk]⟩
  by_cases hv : containsNul value
  · exact ⟨Except.error (Error.embeddedNul "config value"),
      by simp [set_config_string, hk, hv]⟩
  rw [set_config_string_eq gps key value (by simpa using hk) (by simpa using hv)]
  exact config_call_ret gps _ _

theorem set_config_double_ret (gps : Bytes → StrOracle) (key : Bytes) (value : F64) :
    ∃ r, (set_config_double gps key value).1 = Outcome.ret r := by
  by_cases hk : containsNul key
  · exact ⟨Except.error (Error.embeddedNul "config key"), by simp [set_config_double, hk]⟩
  rw [set_config_double_eq gps key value (by simpa using hk)]
  exact config_call_ret gps _ _

theorem set_config_bool_ret (gps : Bytes → StrOracle) (key : Bytes) (value : Bool) :
    ∃ r, (set_config_bool gps key value).1 = Outcome.ret r := by
  by_cases hk : containsNul key
  · exact ⟨Except.error (Error.embeddedNul "config key"), by simp [set_config_bool, hk]⟩
  rw [set_config_bool_eq gps key value (by simpa using hk)]
  exact config_call_ret gps _ _

theorem as_phase_ret (o : AsPhaseOracle) (st : ASModel) :
    ∃ r, (as_phase o st).1 = Outcome.ret r := by
  rcases hc : call_with_error (o st.handle) with e | code
  · exact ⟨Except.error e, by simp [as_phase, hc]⟩
  · rcases hp : Phase.from_code code with _ | p
    · exact ⟨Except.error (Error.unknownPhaseCode code), by simp [as_phase, hc, hp]⟩
    · exact ⟨Except.ok p, by simp [as_phase, hc, hp]⟩

theorem asFpsLoop_no_crash (o : AsFpsOracle) (handle : Int) (param : Bytes) :
    ∀ (fuel capacity : Nat), (asFpsLoop o handle param fuel capacity).1 ≠ Outcome.crash := by
  intro fuel
  induction fuel with
  | zero =>
    intro capacity h
    exact Outcome.noConfusion h
  | succ f ih =>
    intro capacity
    rw [asFpsLoop]
    rcases hc : call_with_error
        { status := (o handle param capacity).status,
          msg := (o handle param capacity).msg, val := () } with e | u
    · simp [hc]
    · by_cases hsat : buffer_saturated (fixLen capacity (o handle param capacity).val)
      · simp only [hc, hsat, if_true]
        exact ih (capacity * 2)
      · simp [hc, hsat]

theorem as_fluid_param_string_no_crash (o : AsFpsOracle) (handle : Int) (param : Bytes)
    (fuel : Nat) : (as_fluid_param_string o handle param fuel).1 ≠ Outcome.crash := by
  by_cases hp : containsNul param
  · simp [as_fluid_param_string, hp]
  · simp only [as_fluid_param_string, hp, Bool.false_eq_true, if_false]
    exact asFpsLoop_no_crash o handle param fuel DEFAULT_STR_BUF_LEN

/-- C6: no modelled wrapper operation panics: for every input — including
strings with embedded NULs and arbitrary native statuses, buffer contents
and message bytes — each modelled public function returns (or, for the
ceiling-less `AbstractState::fluid_param_string` loop, at worst keeps
retrying), and never reaches the wrapper-panic outcome; `call_with_error`
totally translates every native response into `Ok` or `Err`. -/
theorem claim_c6_no_wrapper_panic :
    (∀ (gps : Bytes → StrOracle) (param : Bytes),
      (global_param_string gps param).1 ≠ Outcome.crash)
    ∧ (∀ (gfpsLen : Bytes → Bytes → Int) (gfps : Bytes → Bytes → StrOracle)
        (gps : Bytes → StrOracle) (fluid param : Bytes),
        (fluid_param_string gfpsLen gfps gps fluid param).1 ≠ Outcome.crash)
    ∧ (∀ (po : Bytes → F64 → Bytes → F64 → Bytes → StrOracle) (gps : Bytes → StrOracle)
        (name1 : Bytes) (prop1 : F64) (name2 : Bytes) (prop2 : F64) (fluid : Bytes),
        (phase_si po gps name1 prop1 name2 prop2 fluid).1 ≠ Outcome.crash)
    ∧ (∀ (po : PropsOracle) (gps : Bytes → StrOracle) (output name1 : Bytes) (prop1 : F64)
        (name2 : Bytes) (prop2 : F64) (fluid : Bytes),
        (props_si po gps output name1 prop1 name2 prop2 fluid).1 ≠ Outcome.crash)
    ∧ (∀ (po : Props1Oracle) (gps : Bytes → StrOracle) (output fluid : Bytes),
        (props1_si po gps output fluid).1 ≠ Outcome.crash)
    ∧ (∀ (po : HaPropsOracle) (gps : Bytes → StrOracle) (output name1 : Bytes) (prop1 : F64)
        (name2 : Bytes) (prop2 : F64) (name3 : Bytes) (prop3 : F64),
        (ha_props_si po gps output name1 prop1 name2 prop2 name3 prop3).1 ≠ Outcome.crash)
    ∧ (∀ (gps : Bytes → StrOracle) (key value : Bytes),
        (set_config_string gps key value).1 ≠ Outcome.crash)
    ∧ (∀ (gps : Bytes → StrOracle) (key : Bytes) (dv : F64),
        (set_config_double gps key dv).1 ≠ Outcome.crash)
    ∧ (∀ (gps : Bytes → StrOracle) (key : Bytes) (bv : Bool),
        (set_config_bool gps key bv).1 ≠ Outcome.crash)
    ∧ (∀ (o : AsFpsOracle) (handle : Int) (param : Bytes) (fuel : Nat),
        (as_fluid_param_string o handle param fuel).1 ≠ Outcome.crash)
    ∧ (∀ (o : AsPhaseOracle) (st : ASModel), (as_phase o st).1 ≠ Outcome.crash)
    ∧ (∀ (R : Type) (resp : CallResp R),
        (∃ v, call_with_error resp = Except.ok v)
        ∨ (∃ e, call_with_error resp = Except.error e)) := by
  refine ⟨fun gps param => ret_ne_crash (global_param_string_ret gps param),
    fun a b c d e => ret_ne_crash (fluid_param_string_ret a b c d e),
    fun a b c d e f g => ret_ne_crash (phase_si_ret a b c d e f g),
    fun a b c d e f g h => ret_ne_crash (props_si_ret a b c d e f g h),
    fun a b c d => ret_ne_crash (props1_si_ret a b c d),
    fun a b c d e f g h i => ret_ne_crash (ha_props_si_ret a b c d e f g h i),
    fun a b c => ret_ne_crash (set_config_string_ret a b c),
    fun a b c => ret_ne_crash (set_config_double_ret a b c),
    fun a b c => ret_ne_crash (set_config_bool_ret a b c),
    as_fluid_param_string_no_crash,
    fun o st => ret_ne_crash (as_phase_ret o st), ?_⟩
  intro R resp
  by_cases h : resp.status = 0
  · exact Or.inl ⟨resp.val, call_with_error_ok resp h⟩
  · exact Or.inr ⟨Error.coolProp resp.status (callErrMessage resp.msg),
      call_with_error_err resp h⟩

/-- Witness for C6 at a concrete input: a `global_param_string` call under
a concrete native behaviour does not hit the wrapper-panic outcome. -/
theorem claim_c6_witness :
    (global_param_string (fun _ _ => ((1 : Int), ([] : Bytes))) (strLit "version")).1 ≠
      Outcome.crash :=
  claim_c6_no_wrapper_panic.1 (fun _ _ => ((1 : Int), ([] : Bytes))) (strLit "version")

/-! ## Embedded-NUL rejection -/

/-- C9, amended: every modelled public function that accepts strings
rejects an interior NUL with `Err(Error::EmbeddedNul)` labelling the first
offending argument in check order, and the free functions make no native
call at all in that case; `AbstractState::new` likewise returns the labelled
error and never invokes the native factory, but it resolves the global
index table first, so on a cold process the index-resolution native calls
have already happened. -/
theorem claim_c9_embedded_nul_checks :
    (∀ (gps : Bytes → StrOracle) (param : Bytes), containsNul param = true →
      global_param_string gps param =
        (Outcome.ret (Except.error (Error.embeddedNul "param")), []))
    ∧ (∀ (gfpsLen : Bytes → Bytes → Int) (gfps : Bytes → Bytes → StrOracle)
        (gps : Bytes → StrOracle) (fluid param : Bytes),
        (containsNul fluid = true →
          fluid_param_string gfpsLen gfps gps fluid param =
            (Outcome.ret (Except.error (Error.embeddedNul "fluid")), []))
        ∧ (containsNul fluid = false → containsNul param = true →
          fluid_param_string gfpsLen gfps gps fluid param =
            (Outcome.ret (Except.error (Error.embeddedNul "param")), [])))
    ∧ (∀ (po : Bytes → F64 → Bytes → F64 → Bytes → StrOracle) (gps : Bytes → StrOracle)
        (name1 : Bytes) (prop1 : F64) (name2 : Bytes) (prop2 : F64) (fluid : Bytes),
        (containsNul name1 = true →
          phase_si po gps name1 prop1 name2 prop2 fluid =
            (Outcome.ret (Except.error (Error.embeddedNul "name1")), []))
        ∧ (containsNul name1 = false → containsNul name2 = true →
          phase_si po gps name1 prop1 name2 prop2 fluid =
            (Outcome.ret (Except.error (Error.embeddedNul "name2")), []))
        ∧ (containsNul name1 = false → containsNul name2 = false →
            containsNul fluid = true →
          phase_si po gps name1 prop1 name2 prop2 fluid =
            (Outcome.ret (Except.error (Error.embeddedNul "fluid")), [])))
    ∧ (∀ (po : PropsOracle) (gps : Bytes → StrOracle) (output name1 : Bytes) (prop1 : F64)
        (name2 : Bytes) (prop2 : F64) (fluid : Bytes),
        (containsNul output = true →
          props_si po gps output name1 prop1 name2 prop2 fluid =
            (Outcome.ret (Except.error (Error.embeddedNul "output")), []))
        ∧ (containsNul output = false → containsNul name1 = true →
          props_si po gps output name1 prop1 name2 prop2 fluid =
            (Outcome.ret (Except.error (Error.embeddedNul "name1")), []))
        ∧ (containsNul output = false → containsNul name1 = false →
            containsNul name2 = true →
          props_si po gps output name1 prop1 name2 prop2 fluid =
            (Outcome.ret (Except.error (Error.embeddedNul "name2")), []))
        ∧ (containsNul output = false → containsNul name1 = false →
            containsNul name2 = false → containsNul fluid = true →
          props_si po gps output name1 prop1 name2 prop2 fluid =
            (Outcome.ret (Except.error (Error.embeddedNul "fluid")), [])))
    ∧ (∀ (po : Props1Oracle) (gps : Bytes → StrOracle) (output fluid : Bytes),
        (containsNul output = true →
          props1_si po gps output fluid =
            (Outcome.ret (Except.error (Error.embeddedNul "output")), []))
        ∧ (containsNul output = false → containsNul fluid = true →
          props1_si po gps output fluid =
            (Outcome.ret (Except.error (Error.embeddedNul "fluid")), [])))
    ∧ (∀ (po : HaPropsOracle) (gps : Bytes → StrOracle) (output name1 : Bytes) (prop1 : F64)
        (name2 : Bytes) (prop2 : F64) (name3 : Bytes) (prop3 : F64),
        (containsNul output = true →
          ha_props_si po gps output name1 prop1 name2 prop2 name3 prop3 =
            (Outcome.ret (Except.error (Error.embeddedNul "output")), []))
        ∧ (containsNul output = false → containsNul name1 = true →
          ha_props_si po gps output name1 prop1 name2 prop2 name3 prop3 =
            (Outcome.ret (Except.error (Error.embeddedNul "name1")), []))
        ∧ (containsNul output = false → containsNul name1 = false →
            containsNul name2 = true →
          ha_props_si po gps output name1 prop1 name2 prop2 name3 prop3 =
            (Outcome.ret (Except.error (Error.embeddedNul "name2")), []))
        ∧ (containsNul output = false → containsNul name1 = false →
            containsNul name2 = false → containsNul name3 = true →
          ha_props_si po gps output name1 prop1 name2 prop2 name3 prop3 =
            (Outcome.ret (Except.error (Error.embeddedNul "name3")), [])))
    ∧ (∀ (gps : Bytes → StrOracle) (key value : Bytes),
        (containsNul key = true →
          set_config_string gps key value =
            (Outcome.ret (Except.error (Error.embeddedNul "config key")), []))
        ∧ (containsNul key = false → containsNul value = true →
          set_config_string gps key value =
            (Outcome.ret (Except.error (Error.embeddedNul "config value")), [])))
    ∧ (∀ (gps : Bytes → StrOracle) (key : Bytes) (dv : F64), containsNul key = true →
        set_config_double gps key dv =
          (Outcome.ret (Except.error (Error.embeddedNul "config key")), []))
    ∧ (∀ (gps : Bytes → StrOracle) (key : Bytes) (bv : Bool), containsNul key = true →
        set_config_bool gps key bv =
          (Outcome.ret (Except.error (Error.embeddedNul "config key")), []))
    ∧ (∀ (o : AsFpsOracle) (handle : Int) (param : Bytes) (fuel : Nat),
        containsNul param = true →
        as_fluid_param_string o handle param fuel =
          (Outcome.ret (Except.error (Error.embeddedNul "param")), []))
    ∧ (∀ (io : IndexOracle) (cache : Option IndicesM) (factory : FactoryOracle)
        (backend fluid : Bytes),
        (containsNul backend = true →
          (AbstractState.new io cache factory backend fluid).1.1 =
            Except.error (Error.embeddedNul "backend")
          ∧ NCall.absFactory backend fluid ∉
              (AbstractState.new io cache factory backend fluid).1.2)
        ∧ (containsNul backend = false → containsNul fluid = true →
          (AbstractState.new io cache factory backend fluid).1.1 =
            Except.error (Error.embeddedNul "fluid")
          ∧ NCall.absFactory backend fluid ∉
              (AbstractState.new io cache factory backend fluid).1.2)) := by
  refine ⟨?_, ?_, ?_, ?_, ?_, ?_, ?_, ?_, ?_, ?_, ?_⟩
  · intro gps param h
    simp [global_param_string, h]
  · intro gfpsLen gfps gps fluid param
    exact ⟨fun h => by simp [fluid_param_string, h],
      fun hf h => by simp [fluid_param_string, hf, h]⟩
  · intro po gps name1 prop1 name2 prop2 fluid
    exact ⟨fun h => by simp [phase_si, h],
      fun h1 h => by simp [phase_si, h1, h],
      fun h1 h2 h => by simp [phase_si, h1, h2, h]⟩
  · intro po gps output name1 prop1 name2 prop2 fluid
    exact ⟨fun h => by simp [props_si, h],
      fun h1 h => by simp [props_si, h1, h],
      fun h1 h2 h => by simp [props_si, h1, h2, h],
      fun h1 h2 h3 h => by simp [props_si, h1, h2, h3, h]⟩
  · intro po gps output fluid
    exact ⟨fun h => by simp [props1_si, h],
      fun h1 h => by simp [props1_si, h1, h]⟩
  · intro po gps output name1 prop1 name2 prop2 name3 prop3
    exact ⟨fun h => by simp [ha_props_si, h],
      fun h1 h => by simp [ha_props_si, h1, h],
      fun h1 h2 h => by simp [ha_props_si, h1, h2, h],
      fun h1 h2 h3 h => by simp [ha_props_si, h1, h2, h3, h]⟩
  · intro gps key value
    exact ⟨fun h => by simp [set_config_string, h],
      fun hk h => by simp [set_config_string, hk, h]⟩
  · intro gps key dv h
    simp [set_config_double, h]
  · intro gps key bv h
    simp [set_config_bool, h]
  · intro o handle param fuel h
    simp [as_fluid_param_string, h]
  · intro io cache factory backend fluid
    have hnotmem : NCall.absFactory backend fluid ∉ (global_indices cache io).1.2 := by
      rcases gi_trace_cases cache io with hc | hc <;> rw [hc]
      · simp
      · exact absFactory_not_mem_indexTrace backend fluid
    exact ⟨fun h => ⟨by simp [AbstractState.new, h], by simp [AbstractState.new, h]; exact hnotmem⟩,
      fun hb h => ⟨by simp [AbstractState.new, hb, h],
        by simp [AbstractState.new, hb, h]; exact hnotmem⟩⟩

/-- C9, counterexample: on a cold process, `AbstractState::new` with a
NUL-bearing backend string still returns `Err(Error::EmbeddedNul)`
labelling `backend`, but its native-call trace is non-empty — the index
resolution ran before the NUL check — so "no native library call is made"
is false as stated. -/
theorem claim_c9_counterexample :
    (AbstractState.new { pairIndex := fun _ => 0, paramIndex := fun _ => 0 } none
      (fun _ _ => { status := 0, msg := [], val := 1 })
      (strLit "HE" ++ 0 :: strLit "OS") (strLit "Water")).1.1 =
        Except.error (Error.embeddedNul "backend")
    ∧ (AbstractState.new { pairIndex := fun _ => 0, paramIndex := fun _ => 0 } none
      (fun _ _ => { status := 0, msg := [], val := 1 })
      (strLit "HE" ++ 0 :: strLit "OS") (strLit "Water")).1.2 ≠ [] := by
  constructor
  · rfl
  · intro h
    have : indexCallTrace = [] := h
    simp [indexCallTrace, inputPairTokens] at this

/-- Witness for the amended C9: a parameter with an interior NUL byte makes
`global_param_string` fail with the labelled error and an empty trace. -/
theorem claim_c9_witness :
    global_param_string (fun _ _ => ((1 : Int), ([] : Bytes))) [0] =
      (Outcome.ret (Except.error (Error.embeddedNul "param")), []) :=
  claim_c9_embedded_nul_checks.1 (fun _ _ => ((1 : Int), ([] : Bytes))) [0] (by decide)

end CoolPropRs
